import Mathlib

/-!
Shallow embedding of the document-store core of this repository
(src/parlant/core/agents.py, src/parlant/core/guidelines.py,
src/parlant/core/common.py) together with the parts of the persistence
layer that those modules consume.  The persistence layer itself
(document_database.py, document_database_helper.py, async_utils.py) is not
part of the source tree given here, so its operations are modelled from the
specification (query algebra and collection contract of spec section 4.1,
reader-writer lock discipline of section 4.3, migration chain of
sections 2 and 3); every such definition carries a doc comment saying so.

Documents are modelled as typed structures mirroring the TypedDict schemas
of the source; a collection is the list of its records in insertion order.
Store operations are pure state transformers that additionally return the
sequence of lock and collection events they perform, so that both the
functional claims and the lock-discipline claims can be stated about the
same definitions.
-/

namespace ParlantSpec

/-- JSON scalar stored in a top-level document field (spec section 6:
records are flat mappings of field name to JSON-compatible value). -/
inductive Value where
  | str (s : String)
  | int (n : Int)
  | bool (b : Bool)
  | null
  deriving DecidableEq, Repr

/-- Modelled from the spec: the filter query algebra of section 4.1
(document_database.py is not under src/).  Filters have equality, inequality
and the boolean combinators over top-level fields; a field is represented by
its projection out of the typed document. -/
inductive Where (α : Type) where
  | all : Where α
  | eq (field : α → Value) (v : Value) : Where α
  | ne (field : α → Value) (v : Value) : Where α
  | and (cs : List (Where α)) : Where α
  | or (cs : List (Where α)) : Where α

mutual

/-- Modelled from the spec: evaluation of a filter on one record. -/
def Where.matches {α : Type} : Where α → α → Bool
  | .all, _ => true
  | .eq f v, d => decide (f d = v)
  | .ne f v, d => !decide (f d = v)
  | .and cs, d => Where.matchesAll cs d
  | .or cs, d => Where.matchesAny cs d

/-- Conjunction of a list of filters. -/
def Where.matchesAll {α : Type} : List (Where α) → α → Bool
  | [], _ => true
  | c :: cs, d => c.matches d && Where.matchesAll cs d

/-- Disjunction of a list of filters. -/
def Where.matchesAny {α : Type} : List (Where α) → α → Bool
  | [], _ => false
  | c :: cs, d => c.matches d || Where.matchesAny cs d

end

/-- Errors surfaced by the store (spec section 7).  The source raises
ItemNotFoundError for missing records; a failed assert statement is a
distinct generic failure; DuplicateKey comes from insert_one; the
value-error case models the CompositionMode constructor raising on an
unknown string; the migration-stub case models the converters that raise
and demand the external migration tool. -/
inductive StoreError where
  | itemNotFound (item_id : String)
  | duplicateKey (item_id : String)
  | assertionFailed
  | valueError
  | keyError
  | migrationStub
  deriving DecidableEq, Repr

/-- Modelled from the spec: section 4.1, find returns every record matching
the filter, in insertion order (document_database.py is not under src/).
The per-document loader is the identity on current-version records, which
is all that the collections contain in the store operations below; the
migration chain on legacy records is modelled separately. -/
def find {α : Type} (c : List α) (w : Where α) : List α :=
  c.filter (fun d => w.matches d)

/-- Modelled from the spec: section 4.1, first match under insertion order;
absent is a valid, non-error outcome. -/
def find_one {α : Type} (c : List α) (w : Where α) : Option α :=
  (find c w).head?

/-- Result record of delete_one, mirroring the deleted_count and
deleted_document fields consulted by the source. -/
structure DeleteResult (α : Type) where
  deleted_count : Nat
  deleted_document : Option α
  deriving Repr

/-- Modelled from the spec: section 4.1, delete_one removes the first match
and reports it. -/
def delete_one {α : Type} : List α → Where α → DeleteResult α × List α
  | [], _ => (⟨0, none⟩, [])
  | d :: ds, w =>
    if w.matches d then (⟨1, some d⟩, ds)
    else
      let r := delete_one ds w
      (r.1, d :: r.2)

/-- Result record of update_one, mirroring the updated_document field
consulted by the source. -/
structure UpdateResult (α : Type) where
  updated_document : Option α
  deriving Repr

/-- Modelled from the spec: section 4.1, update_one applies partial-field
updates to the first match (every call site in the two stores uses the
default upsert=false, so only that mode is modelled).  The partial params
mapping of a call site is represented by the field-merge function it
induces on a typed document. -/
def update_one {α : Type} (applyParams : α → α) : List α → Where α → UpdateResult α × List α
  | [], _ => (⟨none⟩, [])
  | d :: ds, w =>
    if w.matches d then (⟨some (applyParams d)⟩, applyParams d :: ds)
    else
      let r := update_one applyParams ds w
      (r.1, d :: r.2)

/-- Modelled from the spec: section 4.1, insert_one appends the record and
fails with DuplicateKey if a record with the same id already exists. -/
def insert_one {α : Type} (idOf : α → String) (c : List α) (d : α) :
    Except StoreError (List α) :=
  if c.any (fun e => idOf e == idOf d) then .error (.duplicateKey (idOf d))
  else .ok (c ++ [d])

/-- Timestamps.  The source stores datetime values through isoformat and
reads them back through fromisoformat, an injective textual encoding with
an exact inverse; the embedding represents a datetime by a natural number
and its ISO string by the decimal digit sequence of that number, which has
the same two properties. -/
abbrev DateTime := Nat

/-- Digit-sequence rendering of a timestamp, standing for datetime.isoformat. -/
def isoformat (d : DateTime) : List Nat :=
  Nat.digits 10 d

/-- Inverse parse, standing for datetime.fromisoformat. -/
def fromisoformat (s : List Nat) : DateTime :=
  Nat.ofDigits 10 s

/-- Lock and collection events of one store operation, in program order.
The lock events are modelled from the spec (section 4.3; async_utils.py is
not under src/): the reader and writer scopes are scoped acquisitions that
release on every exit path, including exceptional ones, which is how the
async-with blocks of the source behave.  The collection events record which
collection operation ran, tagged by collection name. -/
inductive Ev where
  | acquireReader
  | releaseReader
  | acquireWriter
  | releaseWriter
  | findOp (collection : String)
  | findOneOp (collection : String)
  | insertOneOp (collection : String)
  | updateOneOp (collection : String)
  | deleteOneOp (collection : String)
  deriving DecidableEq, Repr

/-- An event is a lock event (as opposed to a collection operation). -/
def Ev.isLockEv : Ev → Bool
  | .acquireReader | .releaseReader | .acquireWriter | .releaseWriter => true
  | _ => false

/-- An event writes to a collection. -/
def Ev.isWriteEv : Ev → Bool
  | .insertOneOp _ | .updateOneOp _ | .deleteOneOp _ => true
  | _ => false

/-- CompositionMode enumeration of agents.py. -/
inductive CompositionMode where
  | fluid
  | fluid_utterance
  | strict_utterance
  | composited_utterance
  deriving DecidableEq, Repr

/-- The .value string of each CompositionMode member. -/
def CompositionMode.value : CompositionMode → String
  | .fluid => "fluid"
  | .fluid_utterance => "fluid_utterance"
  | .strict_utterance => "strict_utterance"
  | .composited_utterance => "composited_utterance"

/-- The CompositionMode constructor applied to a stored string, which in
Python raises ValueError on an unknown string; here it returns none. -/
def compositionModeOfValue (s : String) : Option CompositionMode :=
  if s = "fluid" then some .fluid
  else if s = "fluid_utterance" then some .fluid_utterance
  else if s = "strict_utterance" then some .strict_utterance
  else if s = "composited_utterance" then some .composited_utterance
  else none

/-- Agent domain entity (dataclass Agent of agents.py).  Tag ids and the
entity id are strings, as in the source where AgentId and TagId are string
newtypes. -/
structure Agent where
  id : String
  name : String
  description : Option String
  creation_utc : DateTime
  max_engine_iterations : Int
  tags : List String
  composition_mode : CompositionMode
  deriving DecidableEq, Repr

/-- Stored agent record (TypedDict _AgentDocument of agents.py; all keys
are optional in the TypedDict, but the serializer always writes every key
except that composition_mode is read back with a default, so only that
field is kept optional here). -/
structure AgentDocument where
  id : String
  version : String
  creation_utc : List Nat
  name : String
  description : Option String
  max_engine_iterations : Int
  composition_mode : Option String
  deriving DecidableEq, Repr

/-- Stored agent-tag association record (TypedDict
_AgentTagAssociationDocument of agents.py). -/
structure AgentTagAssociationDocument where
  id : String
  version : String
  creation_utc : List Nat
  agent_id : String
  tag_id : String
  deriving DecidableEq, Repr

/-- Partial update parameters (TypedDict AgentUpdateParams, total=False):
a key is present iff the outer Option is some; the description value is
itself optional in the source. -/
structure AgentUpdateParams where
  name : Option String := none
  description : Option (Option String) := none
  max_engine_iterations : Option Int := none
  composition_mode : Option CompositionMode := none
  deriving DecidableEq, Repr

/-- The two collections owned by AgentDocumentStore: the primary
collection named agents and the association collection named agent_tags,
each in insertion order. -/
structure AgentStoreState where
  agents : List AgentDocument
  agent_tags : List AgentTagAssociationDocument
  deriving DecidableEq, Repr

namespace AgentDocumentStore

/-- VERSION of AgentDocumentStore, as a version string. -/
def VERSION : String := "0.3.0"

/-- Filter on the primary collection selecting a given agent id. -/
def agentIdEq (agent_id : String) : Where AgentDocument :=
  .eq (fun d => .str d.id) (.str agent_id)

/-- Filter on the association collection selecting a given agent id. -/
def assocAgentIdEq (agent_id : String) : Where AgentTagAssociationDocument :=
  .eq (fun a => .str a.agent_id) (.str agent_id)

/-- Serializer _serialize_agent of agents.py. -/
def serialize_agent (agent : Agent) : AgentDocument :=
  { id := agent.id
    version := VERSION
    creation_utc := isoformat agent.creation_utc
    name := agent.name
    description := agent.description
    max_engine_iterations := agent.max_engine_iterations
    composition_mode := some agent.composition_mode.value }

/-- Deserializer _deserialize_agent of agents.py: collects the tag ids of
the matching association records (a find on the agent_tags collection) and
rebuilds the domain entity; composition_mode is read with default value
fluid and passed through the CompositionMode constructor. -/
def deserialize_agent (s : AgentStoreState) (d : AgentDocument) :
    Except StoreError Agent :=
  let tags := (find s.agent_tags (assocAgentIdEq d.id)).map (·.tag_id)
  match compositionModeOfValue (d.composition_mode.getD "fluid") with
  | none => .error .valueError
  | some m =>
      .ok { id := d.id
            creation_utc := fromisoformat d.creation_utc
            name := d.name
            description := d.description
            max_engine_iterations := d.max_engine_iterations
            tags := tags
            composition_mode := m }

/-- The association documents inserted by the tag loop of create_agent:
one per tag, in order, each with a freshly generated id (the id generator
is modelled by the function assoc_id from loop index to id). -/
def createAssocDocs (assoc_id : Nat → String) (creation_utc : DateTime)
    (agent_id : String) (tags : List String) : List AgentTagAssociationDocument :=
  tags.enum.map fun p =>
    { id := assoc_id p.1
      version := VERSION
      creation_utc := isoformat creation_utc
      agent_id := agent_id
      tag_id := p.2 }

/-- Sequential insert_one of a list of documents into a collection,
mirroring the for-loop of create_agent: an insert failure propagates,
keeping the documents inserted so far; also returns how many insert_one
calls ran. -/
def insert_each {α : Type} (idOf : α → String) :
    List α → List α → Except StoreError Unit × List α × Nat
  | c, [] => (.ok (), c, 0)
  | c, d :: ds =>
    match insert_one idOf c d with
    | .error e => (.error e, c, 1)
    | .ok c' =>
      let r := insert_each idOf c' ds
      (r.1, r.2.1, r.2.2 + 1)

/-- create_agent of agents.py.  Fresh ids from generate_id are modelled by
the explicit arguments new_id (for the primary record) and assoc_id (for
the association records); the current UTC time is the explicit argument
now.  The whole body runs inside one writer scope. -/
def create_agent (s : AgentStoreState) (new_id : String) (assoc_id : Nat → String)
    (now : DateTime) (name : String) (description : Option String)
    (creation_utc : Option DateTime) (max_engine_iterations : Option Int)
    (composition_mode : Option CompositionMode) (tags : Option (List String)) :
    Except StoreError Agent × AgentStoreState × List Ev :=
  let cu := creation_utc.getD now
  let mei : Int :=
    match max_engine_iterations with
    | none => 1
    | some v => if v = 0 then 1 else v
  let agent : Agent :=
    { id := new_id
      name := name
      description := description
      creation_utc := cu
      max_engine_iterations := mei
      tags := tags.getD []
      composition_mode := composition_mode.getD .fluid }
  match insert_one (·.id) s.agents (serialize_agent agent) with
  | .error e =>
      (.error e, s, [.acquireWriter, .insertOneOp "agents", .releaseWriter])
  | .ok agents' =>
      let r := insert_each (·.id) s.agent_tags
        (createAssocDocs assoc_id cu new_id (tags.getD []))
      let t := [Ev.acquireWriter, Ev.insertOneOp "agents"]
        ++ List.replicate r.2.2 (Ev.insertOneOp "agent_tags")
        ++ [Ev.releaseWriter]
      match r.1 with
      | .error e => (.error e, { agents := agents', agent_tags := r.2.1 }, t)
      | .ok _ => (.ok agent, { agents := agents', agent_tags := r.2.1 }, t)

/-- read_agent of agents.py: a find_one on the primary collection inside
the reader scope; the not-found check and the deserialization (which reads
the association collection) run after the reader scope is released. -/
def read_agent (s : AgentStoreState) (agent_id : String) :
    Except StoreError Agent × AgentStoreState × List Ev :=
  let t := [Ev.acquireReader, Ev.findOneOp "agents", Ev.releaseReader]
  match find_one s.agents (agentIdEq agent_id) with
  | none => (.error (.itemNotFound agent_id), s, t)
  | some doc => (deserialize_agent s doc, s, t ++ [.findOp "agent_tags"])

/-- list_agents of agents.py: find with the empty filter and deserialize
every record, all inside the reader scope. -/
def list_agents (s : AgentStoreState) :
    Except StoreError (List Agent) × AgentStoreState × List Ev :=
  let docs := find s.agents .all
  let t := [Ev.acquireReader, Ev.findOp "agents"]
    ++ List.replicate docs.length (Ev.findOp "agent_tags")
    ++ [Ev.releaseReader]
  (docs.mapM (deserialize_agent s), s, t)

/-- Field merge performed by update_one for the params mapping that
update_agent passes: only present keys change.  The source stores the raw
CompositionMode enum member in the document where a string normally lives;
since Python normalizes it back to the same member on read through the
CompositionMode constructor, the embedding stores its value string. -/
def applyAgentUpdateParams (params : AgentUpdateParams) (d : AgentDocument) :
    AgentDocument :=
  { d with
    name := params.name.getD d.name
    description := params.description.getD d.description
    max_engine_iterations := params.max_engine_iterations.getD d.max_engine_iterations
    composition_mode :=
      match params.composition_mode with
      | some m => some m.value
      | none => d.composition_mode }

/-- update_agent of agents.py: inside the writer scope, a find_one on the
primary collection, the not-found branch raising ItemNotFoundError, then
update_one with the given params; the assert on the update result and the
deserialization run after the writer scope is released. -/
def update_agent (s : AgentStoreState) (agent_id : String)
    (params : AgentUpdateParams) :
    Except StoreError Agent × AgentStoreState × List Ev :=
  match find_one s.agents (agentIdEq agent_id) with
  | none =>
      (.error (.itemNotFound agent_id), s,
        [.acquireWriter, .findOneOp "agents", .releaseWriter])
  | some _ =>
      let r := update_one (applyAgentUpdateParams params) s.agents (agentIdEq agent_id)
      let s' : AgentStoreState := { s with agents := r.2 }
      let t := [Ev.acquireWriter, Ev.findOneOp "agents", Ev.updateOneOp "agents",
        Ev.releaseWriter]
      match r.1.updated_document with
      | none => (.error .assertionFailed, s', t)
      | some ud => (deserialize_agent s' ud, s', t ++ [.findOp "agent_tags"])

/-- The association-deletion loop of delete_agent: for each record found,
one delete_one on the association collection keyed by that record id. -/
def delete_found {α : Type} (idOf : α → String) :
    List α → List α → List α × Nat
  | c, [] => (c, 0)
  | c, d :: ds =>
    let r := delete_one c (.eq (fun a => .str (idOf a)) (.str (idOf d)))
    let rest := delete_found idOf r.2 ds
    (rest.1, rest.2 + 1)

/-- delete_agent of agents.py: inside one writer scope, delete_one on the
primary collection, then a find of all association records of the agent and
one delete_one per found record; the deleted_count check raising
ItemNotFoundError runs after the writer scope is released. -/
def delete_agent (s : AgentStoreState) (agent_id : String) :
    Except StoreError Unit × AgentStoreState × List Ev :=
  let r := delete_one s.agents (agentIdEq agent_id)
  let found := find s.agent_tags (assocAgentIdEq agent_id)
  let dl := delete_found (·.id) s.agent_tags found
  let s' : AgentStoreState := { agents := r.2, agent_tags := dl.1 }
  let t := [Ev.acquireWriter, Ev.deleteOneOp "agents", Ev.findOp "agent_tags"]
    ++ List.replicate dl.2 (Ev.deleteOneOp "agent_tags")
    ++ [Ev.releaseWriter]
  if r.1.deleted_count = 0 then (.error (.itemNotFound agent_id), s', t)
  else (.ok (), s', t)

/-- upsert_tag of agents.py: inside the writer scope it calls the public
read_agent (which acquires the reader scope), returns false if the tag is
already associated, otherwise inserts one association record and re-reads
the primary record; the final not-found check runs after the writer scope
is released.  Fresh id and current time are the explicit arguments new_id
and now. -/
def upsert_tag (s : AgentStoreState) (agent_id : String) (tag_id : String)
    (creation_utc : Option DateTime) (new_id : String) (now : DateTime) :
    Except StoreError Bool × AgentStoreState × List Ev :=
  let ra := read_agent s agent_id
  match ra.1 with
  | .error e => (.error e, s, [Ev.acquireWriter] ++ ra.2.2 ++ [Ev.releaseWriter])
  | .ok agent =>
    if tag_id ∈ agent.tags then
      (.ok false, s, [Ev.acquireWriter] ++ ra.2.2 ++ [Ev.releaseWriter])
    else
      let cu := creation_utc.getD now
      let doc : AgentTagAssociationDocument :=
        { id := new_id
          version := VERSION
          creation_utc := isoformat cu
          agent_id := agent_id
          tag_id := tag_id }
      match insert_one (·.id) s.agent_tags doc with
      | .error e =>
          (.error e, s,
            [Ev.acquireWriter] ++ ra.2.2
              ++ [Ev.insertOneOp "agent_tags", Ev.releaseWriter])
      | .ok assocs' =>
        let s' : AgentStoreState := { s with agent_tags := assocs' }
        let t := [Ev.acquireWriter] ++ ra.2.2
          ++ [Ev.insertOneOp "agent_tags", Ev.findOneOp "agents", Ev.releaseWriter]
        match find_one s'.agents (agentIdEq agent_id) with
        | none => (.error (.itemNotFound agent_id), s', t)
        | some _ => (.ok true, s', t)

/-- remove_tag of agents.py: inside the writer scope, delete_one on the
association collection keyed by agent id and tag id, raising
ItemNotFoundError when nothing was deleted, then a find_one on the primary
collection; the final not-found check runs after the writer scope is
released. -/
def remove_tag (s : AgentStoreState) (agent_id : String) (tag_id : String) :
    Except StoreError Unit × AgentStoreState × List Ev :=
  let r := delete_one s.agent_tags
    (.and [.eq (fun a => .str a.agent_id) (.str agent_id),
           .eq (fun a => .str a.tag_id) (.str tag_id)])
  if r.1.deleted_count = 0 then
    (.error (.itemNotFound tag_id), { s with agent_tags := r.2 },
      [.acquireWriter, .deleteOneOp "agent_tags", .releaseWriter])
  else
    let s' : AgentStoreState := { s with agent_tags := r.2 }
    let t := [Ev.acquireWriter, Ev.deleteOneOp "agent_tags", Ev.findOneOp "agents",
      Ev.releaseWriter]
    match find_one s'.agents (agentIdEq agent_id) with
    | none => (.error (.itemNotFound agent_id), s', t)
    | some _ => (.ok (), s', t)

end AgentDocumentStore

/-- Guideline content pair (dataclass GuidelineContent of guidelines.py). -/
structure GuidelineContent where
  condition : String
  action : String
  deriving DecidableEq, Repr

/-- Guideline domain entity (dataclass Guideline of guidelines.py).
The metadata mapping is represented as an association list in key order. -/
structure Guideline where
  id : String
  creation_utc : DateTime
  content : GuidelineContent
  enabled : Bool
  tags : List String
  metadata : List (String × Value)
  deriving DecidableEq, Repr

/-- Stored guideline record at the current version (TypedDict
GuidelineDocument of guidelines.py); the serializer always writes every
key. -/
structure GuidelineDocument where
  id : String
  version : String
  creation_utc : List Nat
  condition : String
  action : String
  enabled : Bool
  metadata : List (String × Value)
  deriving DecidableEq, Repr

/-- Stored guideline-tag association record (TypedDict
GuidelineTagAssociationDocument of guidelines.py). -/
structure GuidelineTagAssociationDocument where
  id : String
  version : String
  creation_utc : List Nat
  guideline_id : String
  tag_id : String
  deriving DecidableEq, Repr

/-- Partial update parameters (TypedDict GuidelineUpdateParams,
total=False): a key is present iff the Option is some. -/
structure GuidelineUpdateParams where
  condition : Option String := none
  action : Option String := none
  enabled : Option Bool := none
  metadata : Option (List (String × Value)) := none
  deriving DecidableEq, Repr

/-- The two collections owned by GuidelineDocumentStore: the primary
collection named guidelines and the association collection named
guideline_tag_associations, each in insertion order. -/
structure GuidelineStoreState where
  guidelines : List GuidelineDocument
  guideline_tag_associations : List GuidelineTagAssociationDocument
  deriving DecidableEq, Repr

/-- Python dict double-splat merge, as used by add_metadata: keys of the
first mapping in order with values overridden by the second, then the new
keys of the second mapping in its order (both mappings have unique keys in
the source, being Python dicts). -/
def dictUpdate (a b : List (String × Value)) : List (String × Value) :=
  (a.map fun kv =>
    match b.lookup kv.1 with
    | some v => (kv.1, v)
    | none => kv)
  ++ b.filter (fun kv => (a.lookup kv.1).isNone)

namespace GuidelineDocumentStore

/-- VERSION of GuidelineDocumentStore, as a version string. -/
def VERSION : String := "0.4.0"

/-- Filter on the primary collection selecting a given guideline id. -/
def guidelineIdEq (guideline_id : String) : Where GuidelineDocument :=
  .eq (fun d => .str d.id) (.str guideline_id)

/-- Filter on the association collection selecting a given guideline id. -/
def assocGuidelineIdEq (guideline_id : String) : Where GuidelineTagAssociationDocument :=
  .eq (fun a => .str a.guideline_id) (.str guideline_id)

/-- Serializer _serialize of guidelines.py. -/
def serialize (guideline : Guideline) : GuidelineDocument :=
  { id := guideline.id
    version := VERSION
    creation_utc := isoformat guideline.creation_utc
    condition := guideline.content.condition
    action := guideline.content.action
    enabled := guideline.enabled
    metadata := guideline.metadata }

/-- Deserializer _deserialize of guidelines.py: collects the tag ids of
the matching association records and rebuilds the domain entity.  Unlike
the agent deserializer it is total. -/
def deserialize (s : GuidelineStoreState) (d : GuidelineDocument) : Guideline :=
  { id := d.id
    creation_utc := fromisoformat d.creation_utc
    content := { condition := d.condition, action := d.action }
    enabled := d.enabled
    tags := (find s.guideline_tag_associations (assocGuidelineIdEq d.id)).map (·.tag_id)
    metadata := d.metadata }

/-- The association documents inserted by the tag loop of
create_guideline. -/
def createAssocDocs (assoc_id : Nat → String) (creation_utc : DateTime)
    (guideline_id : String) (tags : List String) :
    List GuidelineTagAssociationDocument :=
  tags.enum.map fun p =>
    { id := assoc_id p.1
      version := VERSION
      creation_utc := isoformat creation_utc
      guideline_id := guideline_id
      tag_id := p.2 }

/-- create_guideline of guidelines.py, with fresh ids and current time as
explicit arguments, all inside one writer scope. -/
def create_guideline (s : GuidelineStoreState) (new_id : String)
    (assoc_id : Nat → String) (now : DateTime) (condition : String)
    (action : String) (metadata : List (String × Value))
    (creation_utc : Option DateTime) (enabled : Bool)
    (tags : Option (List String)) :
    Except StoreError Guideline × GuidelineStoreState × List Ev :=
  let cu := creation_utc.getD now
  let guideline : Guideline :=
    { id := new_id
      creation_utc := cu
      content := { condition := condition, action := action }
      enabled := enabled
      tags := tags.getD []
      metadata := metadata }
  match insert_one (·.id) s.guidelines (serialize guideline) with
  | .error e =>
      (.error e, s, [.acquireWriter, .insertOneOp "guidelines", .releaseWriter])
  | .ok gs' =>
      let r := AgentDocumentStore.insert_each (·.id) s.guideline_tag_associations
        (createAssocDocs assoc_id cu new_id (tags.getD []))
      let t := [Ev.acquireWriter, Ev.insertOneOp "guidelines"]
        ++ List.replicate r.2.2 (Ev.insertOneOp "guideline_tag_associations")
        ++ [Ev.releaseWriter]
      match r.1 with
      | .error e =>
          (.error e, { guidelines := gs', guideline_tag_associations := r.2.1 }, t)
      | .ok _ =>
          (.ok guideline, { guidelines := gs', guideline_tag_associations := r.2.1 }, t)

/-- list_guidelines of guidelines.py.  With no tags argument the empty
filter selects everything; with an explicitly empty tags sequence the
filter excludes every guideline id that occurs in any association record;
with a nonempty tags sequence the association collection is queried with a
disjunction of tag-id equalities and, unless no association matched, the
primary collection is queried with a disjunction of the matching guideline
ids.  Deserialization happens inside the reader scope.  The source
collects the ids in a Python set; a conjunction of inequalities and a
disjunction of equalities are insensitive to duplication and order, so the
embedding keeps the id list. -/
def list_guidelines (s : GuidelineStoreState) (tags : Option (List String)) :
    List Guideline × List Ev :=
  match tags with
  | none =>
      let docs := find s.guidelines .all
      (docs.map (deserialize s),
        [Ev.acquireReader, Ev.findOp "guidelines"]
          ++ List.replicate docs.length (Ev.findOp "guideline_tag_associations")
          ++ [Ev.releaseReader])
  | some ts =>
      if ts.isEmpty then
        let guideline_ids :=
          (find s.guideline_tag_associations .all).map (·.guideline_id)
        let filters : Where GuidelineDocument :=
          if guideline_ids.isEmpty then .all
          else .and (guideline_ids.map fun i => .ne (fun d => .str d.id) (.str i))
        let docs := find s.guidelines filters
        (docs.map (deserialize s),
          [Ev.acquireReader, Ev.findOp "guideline_tag_associations",
            Ev.findOp "guidelines"]
            ++ List.replicate docs.length (Ev.findOp "guideline_tag_associations")
            ++ [Ev.releaseReader])
      else
        let tag_filters : Where GuidelineTagAssociationDocument :=
          .or (ts.map fun tg => .eq (fun a => .str a.tag_id) (.str tg))
        let tag_associations := find s.guideline_tag_associations tag_filters
        let guideline_ids := tag_associations.map (·.guideline_id)
        if guideline_ids.isEmpty then
          ([], [Ev.acquireReader, Ev.findOp "guideline_tag_associations",
            Ev.releaseReader])
        else
          let filters : Where GuidelineDocument :=
            .or (guideline_ids.map fun i => .eq (fun d => .str d.id) (.str i))
          let docs := find s.guidelines filters
          (docs.map (deserialize s),
            [Ev.acquireReader, Ev.findOp "guideline_tag_associations",
              Ev.findOp "guidelines"]
              ++ List.replicate docs.length (Ev.findOp "guideline_tag_associations")
              ++ [Ev.releaseReader])

/-- read_guideline of guidelines.py: a find_one inside the reader scope;
the not-found check and the deserialization run after the reader scope is
released. -/
def read_guideline (s : GuidelineStoreState) (guideline_id : String) :
    Except StoreError Guideline × GuidelineStoreState × List Ev :=
  let t := [Ev.acquireReader, Ev.findOneOp "guidelines", Ev.releaseReader]
  match find_one s.guidelines (guidelineIdEq guideline_id) with
  | none => (.error (.itemNotFound guideline_id), s, t)
  | some doc =>
      (.ok (deserialize s doc), s, t ++ [.findOp "guideline_tag_associations"])

/-- delete_guideline of guidelines.py: inside one writer scope, delete_one
on the primary collection, then a find of all association records of the
guideline and one delete_one per found record; the deleted_document check
raising ItemNotFoundError runs after the writer scope is released. -/
def delete_guideline (s : GuidelineStoreState) (guideline_id : String) :
    Except StoreError Unit × GuidelineStoreState × List Ev :=
  let r := delete_one s.guidelines (guidelineIdEq guideline_id)
  let found := find s.guideline_tag_associations (assocGuidelineIdEq guideline_id)
  let dl := AgentDocumentStore.delete_found (·.id) s.guideline_tag_associations found
  let s' : GuidelineStoreState :=
    { guidelines := r.2, guideline_tag_associations := dl.1 }
  let t := [Ev.acquireWriter, Ev.deleteOneOp "guidelines",
    Ev.findOp "guideline_tag_associations"]
    ++ List.replicate dl.2 (Ev.deleteOneOp "guideline_tag_associations")
    ++ [Ev.releaseWriter]
  match r.1.deleted_document with
  | none => (.error (.itemNotFound guideline_id), s', t)
  | some _ => (.ok (), s', t)

/-- Field merge performed by update_one for the params document that
update_guideline builds: it is assembled only from the condition, action
and enabled keys of the given params; the metadata key is never copied
into it. -/
def applyGuidelineUpdateParams (params : GuidelineUpdateParams)
    (d : GuidelineDocument) : GuidelineDocument :=
  { d with
    condition := params.condition.getD d.condition
    action := params.action.getD d.action
    enabled := params.enabled.getD d.enabled }

/-- update_guideline of guidelines.py: inside the writer scope, a single
update_one on the primary collection (no preliminary find_one, unlike
update_agent); the assert on the update result and the deserialization run
after the writer scope is released, so an absent id fails the assert
rather than raising ItemNotFoundError. -/
def update_guideline (s : GuidelineStoreState) (guideline_id : String)
    (params : GuidelineUpdateParams) :
    Except StoreError Guideline × GuidelineStoreState × List Ev :=
  let r := update_one (applyGuidelineUpdateParams params) s.guidelines
    (guidelineIdEq guideline_id)
  let s' : GuidelineStoreState := { s with guidelines := r.2 }
  let t := [Ev.acquireWriter, Ev.updateOneOp "guidelines", Ev.releaseWriter]
  match r.1.updated_document with
  | none => (.error .assertionFailed, s', t)
  | some ud =>
      (.ok (deserialize s' ud), s', t ++ [.findOp "guideline_tag_associations"])

/-- find_guideline of guidelines.py: find_one by condition and action
inside the reader scope; the not-found check and deserialization run after
it. -/
def find_guideline (s : GuidelineStoreState) (content : GuidelineContent) :
    Except StoreError Guideline × GuidelineStoreState × List Ev :=
  let t := [Ev.acquireReader, Ev.findOneOp "guidelines", Ev.releaseReader]
  match find_one s.guidelines
    (.and [.eq (fun d => .str d.condition) (.str content.condition),
           .eq (fun d => .str d.action) (.str content.action)]) with
  | none =>
      (.error (.itemNotFound (content.condition ++ content.action)), s, t)
  | some doc =>
      (.ok (deserialize s doc), s, t ++ [.findOp "guideline_tag_associations"])

/-- upsert_tag of guidelines.py: inside the writer scope it calls the
public read_guideline (which acquires the reader scope), returns false if
the tag is already associated, otherwise inserts one association record
and re-reads the primary record; the final not-found check runs after the
writer scope is released. -/
def upsert_tag (s : GuidelineStoreState) (guideline_id : String)
    (tag_id : String) (creation_utc : Option DateTime) (new_id : String)
    (now : DateTime) :
    Except StoreError Bool × GuidelineStoreState × List Ev :=
  let rg := read_guideline s guideline_id
  match rg.1 with
  | .error e => (.error e, s, [Ev.acquireWriter] ++ rg.2.2 ++ [Ev.releaseWriter])
  | .ok guideline =>
    if tag_id ∈ guideline.tags then
      (.ok false, s, [Ev.acquireWriter] ++ rg.2.2 ++ [Ev.releaseWriter])
    else
      let cu := creation_utc.getD now
      let doc : GuidelineTagAssociationDocument :=
        { id := new_id
          version := VERSION
          creation_utc := isoformat cu
          guideline_id := guideline_id
          tag_id := tag_id }
      match insert_one (·.id) s.guideline_tag_associations doc with
      | .error e =>
          (.error e, s,
            [Ev.acquireWriter] ++ rg.2.2
              ++ [Ev.insertOneOp "guideline_tag_associations", Ev.releaseWriter])
      | .ok assocs' =>
        let s' : GuidelineStoreState := { s with guideline_tag_associations := assocs' }
        let t := [Ev.acquireWriter] ++ rg.2.2
          ++ [Ev.insertOneOp "guideline_tag_associations", Ev.findOneOp "guidelines",
            Ev.releaseWriter]
        match find_one s'.guidelines (guidelineIdEq guideline_id) with
        | none => (.error (.itemNotFound guideline_id), s', t)
        | some _ => (.ok true, s', t)

/-- remove_tag of guidelines.py, mirroring remove_tag of agents.py. -/
def remove_tag (s : GuidelineStoreState) (guideline_id : String)
    (tag_id : String) :
    Except StoreError Unit × GuidelineStoreState × List Ev :=
  let r := delete_one s.guideline_tag_associations
    (.and [.eq (fun a => .str a.guideline_id) (.str guideline_id),
           .eq (fun a => .str a.tag_id) (.str tag_id)])
  if r.1.deleted_count = 0 then
    (.error (.itemNotFound tag_id), { s with guideline_tag_associations := r.2 },
      [.acquireWriter, .deleteOneOp "guideline_tag_associations", .releaseWriter])
  else
    let s' : GuidelineStoreState := { s with guideline_tag_associations := r.2 }
    let t := [Ev.acquireWriter, Ev.deleteOneOp "guideline_tag_associations",
      Ev.findOneOp "guidelines", Ev.releaseWriter]
    match find_one s'.guidelines (guidelineIdEq guideline_id) with
    | none => (.error (.itemNotFound guideline_id), s', t)
    | some _ => (.ok (), s', t)

/-- add_metadata of guidelines.py: inside the writer scope, find_one on
the primary collection raising ItemNotFoundError when absent, then
update_one whose params set the metadata field to the double-splat merge of
the stored metadata with the new entries; assert and deserialization run
after the writer scope is released. -/
def add_metadata (s : GuidelineStoreState) (guideline_id : String)
    (metadata : List (String × Value)) :
    Except StoreError Guideline × GuidelineStoreState × List Ev :=
  match find_one s.guidelines (guidelineIdEq guideline_id) with
  | none =>
      (.error (.itemNotFound guideline_id), s,
        [.acquireWriter, .findOneOp "guidelines", .releaseWriter])
  | some doc =>
      let updated_metadata := dictUpdate doc.metadata metadata
      let r := update_one (fun d => { d with metadata := updated_metadata })
        s.guidelines (guidelineIdEq guideline_id)
      let s' : GuidelineStoreState := { s with guidelines := r.2 }
      let t := [Ev.acquireWriter, Ev.findOneOp "guidelines",
        Ev.updateOneOp "guidelines", Ev.releaseWriter]
      match r.1.updated_document with
      | none => (.error .assertionFailed, s', t)
      | some ud =>
          (.ok (deserialize s' ud), s', t ++ [.findOp "guideline_tag_associations"])

/-- remove_metadata of guidelines.py: like add_metadata but the new
metadata value drops the given keys. -/
def remove_metadata (s : GuidelineStoreState) (guideline_id : String)
    (keys : List String) :
    Except StoreError Guideline × GuidelineStoreState × List Ev :=
  match find_one s.guidelines (guidelineIdEq guideline_id) with
  | none =>
      (.error (.itemNotFound guideline_id), s,
        [.acquireWriter, .findOneOp "guidelines", .releaseWriter])
  | some doc =>
      let updated_metadata := doc.metadata.filter (fun kv => !(kv.1 ∈ keys))
      let r := update_one (fun d => { d with metadata := updated_metadata })
        s.guidelines (guidelineIdEq guideline_id)
      let s' : GuidelineStoreState := { s with guidelines := r.2 }
      let t := [Ev.acquireWriter, Ev.findOneOp "guidelines",
        Ev.updateOneOp "guidelines", Ev.releaseWriter]
      match r.1.updated_document with
      | none => (.error .assertionFailed, s', t)
      | some ud =>
          (.ok (deserialize s' ud), s', t ++ [.findOp "guideline_tag_associations"])

end GuidelineDocumentStore

/-- Raw stored guideline record as seen by the migration chain: the union
of the fields of the per-version TypedDicts GuidelineDocument_v0_1_0,
GuidelineDocument_v0_2_0, GuidelineDocument_v0_3_0 and GuidelineDocument
of guidelines.py; a field absent at a given version is none. -/
structure GuidelineBaseDocument where
  id : String
  version : String
  creation_utc : List Nat
  guideline_set : Option String := none
  condition : String
  action : String
  enabled : Option Bool := none
  metadata : Option (List (String × Value)) := none
  deriving DecidableEq, Repr

/-- Type of one migration converter: it may produce the next-version
record, drop the record (none), or raise.  A Python KeyError on a missing
mandatory key is the error case keyError. -/
abbrev GuidelineConverter :=
  GuidelineBaseDocument → Except StoreError (Option GuidelineBaseDocument)

/-- Module-level converter guideline_document_converter_0_1_0_to_0_2_0 of
guidelines.py: copies every v0.1.0 field (reading guideline_set raises a
KeyError when the key is absent, modelled by the error branch), bumps the
version to 0.2.0 and adds enabled=true. -/
def guideline_document_converter_0_1_0_to_0_2_0 : GuidelineConverter := fun d =>
  match d.guideline_set with
  | none => .error .keyError
  | some gs =>
      .ok (some { id := d.id
                  version := "0.2.0"
                  creation_utc := d.creation_utc
                  guideline_set := some gs
                  condition := d.condition
                  action := d.action
                  enabled := some true })

/-- Converter v0_2_0_to_v_0_3_0 nested in _document_loader of
guidelines.py: an intentional stub that raises and demands the external
migration preparation script. -/
def v0_2_0_to_v_0_3_0 : GuidelineConverter := fun _ =>
  .error .migrationStub

/-- Converter v0_3_0_to_v0_4_0 nested in _document_loader of
guidelines.py: copies the v0.3.0 fields (guideline_set no longer exists at
this version and is not copied), bumps the version to 0.4.0 and adds an
empty metadata mapping; reading a missing enabled key would raise. -/
def v0_3_0_to_v0_4_0 : GuidelineConverter := fun d =>
  match d.enabled with
  | none => .error .keyError
  | some e =>
      .ok (some { id := d.id
                  version := "0.4.0"
                  creation_utc := d.creation_utc
                  guideline_set := none
                  condition := d.condition
                  action := d.action
                  enabled := some e
                  metadata := some [] })

/-- The converter table passed to DocumentMigrationHelper by
_document_loader of guidelines.py, keyed by source version. -/
def guidelineConverters (v : String) : Option GuidelineConverter :=
  if v = "0.1.0" then some guideline_document_converter_0_1_0_to_0_2_0
  else if v = "0.2.0" then some v0_2_0_to_v_0_3_0
  else if v = "0.3.0" then some v0_3_0_to_v0_4_0
  else none

/-- Modelled from the spec: DocumentMigrationHelper.migrate
(document_database_helper.py is not under src/).  Sections 2 and 3: the
converter keyed by the stored version rewrites the record into the next
version, repeatedly, until the current version is reached; a version with
no registered converter means the record is dropped (the loader returns
none); an explicit stop signal propagates.  The fuel argument bounds the
walk and is chosen larger than the chain length, so it is never exhausted
on the versions considered here. -/
def migrateLoop (current : String) (converters : String → Option GuidelineConverter) :
    Nat → GuidelineBaseDocument → Except StoreError (Option GuidelineBaseDocument)
  | 0, _ => .ok none
  | fuel + 1, d =>
    if d.version = current then .ok (some d)
    else
      match converters d.version with
      | none => .ok none
      | some conv =>
        match conv d with
        | .error e => .error e
        | .ok none => .ok none
        | .ok (some d') => migrateLoop current converters fuel d'

/-- _document_loader of GuidelineDocumentStore: the migration chain from
any stored version to the current version 0.4.0. -/
def guideline_document_loader (d : GuidelineBaseDocument) :
    Except StoreError (Option GuidelineBaseDocument) :=
  migrateLoop GuidelineDocumentStore.VERSION guidelineConverters 8 d

/-- Embedding of a current-version guideline record into the raw record
shape handled by the migration chain. -/
def GuidelineDocument.toBase (d : GuidelineDocument) : GuidelineBaseDocument :=
  { id := d.id
    version := d.version
    creation_utc := d.creation_utc
    guideline_set := none
    condition := d.condition
    action := d.action
    enabled := some d.enabled
    metadata := some d.metadata }

/-- Modelled from the spec: section 6, the unique-id generator draws
candidates from the external nanoid library, each of the requested fixed
size; the library itself is outside the repository, so a run of the
generator is represented by the stream of candidates it would draw, and
generate_id of common.py takes the first candidate that neither starts nor
ends with a dash and contains no underscore (strings are modelled as their
character lists). -/
def valid_new_id (c : List Char) : Bool :=
  !(c.head? == some '-' || c.getLast? == some '-') && !(c.contains '_')

/-- generate_id of common.py over an explicit candidate stream: the
retry-until-valid loop returns the first valid candidate. -/
def generate_id (candidates : List (List Char)) : Option (List Char) :=
  candidates.find? valid_new_id

/-- The association document built inside upsert_tag of guidelines.py,
named here so the proofs below can refer to it compactly. -/
def mkGuidelineTagDoc (new_id : String) (cu : DateTime) (gid tid : String) :
    GuidelineTagAssociationDocument :=
  { id := new_id
    version := GuidelineDocumentStore.VERSION
    creation_utc := isoformat cu
    guideline_id := gid
    tag_id := tid }

/-- The lock shape asserted by the claim for a read-modify-write
operation: the writer scope is acquired first and released last, covering
the entire operation, and no other lock activity — in particular no
reader-scope acquisition — happens inside it. -/
def claimC2Shape (t : List Ev) : Prop :=
  ∃ mid, t = Ev.acquireWriter :: mid ++ [Ev.releaseWriter] ∧
    ∀ e ∈ mid, e.isLockEv = false

/-- The lock shape the operations actually have: one writer section with
no nested writer activity, all collection writes inside it, followed only
by lock-free, write-free events (the deserialization reads the source
performs after releasing the writer scope). -/
def writerSectionWithPost (t : List Ev) : Prop :=
  ∃ mid post, t = Ev.acquireWriter :: mid ++ Ev.releaseWriter :: post ∧
    Ev.acquireWriter ∉ mid ∧ Ev.releaseWriter ∉ mid ∧
    (∀ e ∈ post, e.isLockEv = false ∧ e.isWriteEv = false)

/-- The lock shape of upsert_tag: a single writer section spanning the
whole operation, with a nested reader acquisition and release inside it,
coming from the call to the public read operation. -/
def writerSectionNestedReader (t : List Ev) : Prop :=
  ∃ mid, t = Ev.acquireWriter :: mid ++ [Ev.releaseWriter] ∧
    Ev.acquireWriter ∉ mid ∧ Ev.releaseWriter ∉ mid ∧
    Ev.acquireReader ∈ mid ∧ Ev.releaseReader ∈ mid

/-! Small concrete store contents used to instantiate the theorems below
on explicit inputs. -/

/-- A concrete stored guideline record. -/
def gdoc1 : GuidelineDocument :=
  { id := "g1"
    version := "0.4.0"
    creation_utc := [5]
    condition := "c"
    action := "a"
    enabled := true
    metadata := [("k", Value.int 1)] }

/-- A concrete guideline store holding gdoc1 and no associations. -/
def gstate1 : GuidelineStoreState :=
  { guidelines := [gdoc1], guideline_tag_associations := [] }

/-- A concrete stored agent record. -/
def adoc1 : AgentDocument :=
  { id := "a1"
    version := "0.3.0"
    creation_utc := [7]
    name := "alpha"
    description := none
    max_engine_iterations := 1
    composition_mode := some "fluid" }

/-- A concrete agent store holding adoc1 and no associations. -/
def astate1 : AgentStoreState :=
  { agents := [adoc1], agent_tags := [] }

/-- A concrete guideline-tag association record linking gdoc1 to tag t1. -/
def gassoc1 : GuidelineTagAssociationDocument :=
  { id := "x1"
    version := "0.4.0"
    creation_utc := [5]
    guideline_id := "g1"
    tag_id := "t1" }

/-- A second concrete stored guideline record. -/
def gdoc2 : GuidelineDocument :=
  { id := "g2"
    version := "0.4.0"
    creation_utc := [6]
    condition := "c2"
    action := "a2"
    enabled := true
    metadata := [] }

/-- A concrete guideline-tag association record linking gdoc2 to tag t1. -/
def gassoc2 : GuidelineTagAssociationDocument :=
  { id := "x2"
    version := "0.4.0"
    creation_utc := [6]
    guideline_id := "g2"
    tag_id := "t1" }

/-- A concrete guideline store where gdoc1 has no tags and gdoc2 has tag
t1, matching the concrete scenario of the spec. -/
def gstate2 : GuidelineStoreState :=
  { guidelines := [gdoc1, gdoc2], guideline_tag_associations := [gassoc2] }

/-- A concrete stored guideline record at schema version 0.1.0. -/
def gbase010 : GuidelineBaseDocument :=
  { id := "g1"
    version := "0.1.0"
    creation_utc := [5]
    guideline_set := some "default"
    condition := "c"
    action := "a" }

/-! Helper lemmas about the modelled collection operations. -/

@[simp] theorem Where.matches_all_def {α : Type} (d : α) :
    (Where.all : Where α).matches d = true := rfl

@[simp] theorem Where.matches_eq_def {α : Type} (f : α → Value) (v : Value) (d : α) :
    (Where.eq f v).matches d = decide (f d = v) := rfl

@[simp] theorem Where.matches_ne_def {α : Type} (f : α → Value) (v : Value) (d : α) :
    (Where.ne f v).matches d = !decide (f d = v) := rfl

@[simp] theorem Where.matchesAll_nil {α : Type} (d : α) :
    Where.matchesAll ([] : List (Where α)) d = true := rfl

@[simp] theorem Where.matchesAll_cons {α : Type} (c : Where α) (cs : List (Where α)) (d : α) :
    Where.matchesAll (c :: cs) d = (c.matches d && Where.matchesAll cs d) := rfl

@[simp] theorem Where.matchesAny_nil {α : Type} (d : α) :
    Where.matchesAny ([] : List (Where α)) d = false := rfl

@[simp] theorem Where.matchesAny_cons {α : Type} (c : Where α) (cs : List (Where α)) (d : α) :
    Where.matchesAny (c :: cs) d = (c.matches d || Where.matchesAny cs d) := rfl

@[simp] theorem Where.matches_and_def {α : Type} (cs : List (Where α)) (d : α) :
    (Where.and cs).matches d = Where.matchesAll cs d := rfl

@[simp] theorem Where.matches_or_def {α : Type} (cs : List (Where α)) (d : α) :
    (Where.or cs).matches d = Where.matchesAny cs d := rfl

@[simp] theorem fromisoformat_isoformat (d : DateTime) :
    fromisoformat (isoformat d) = d :=
  Nat.ofDigits_digits 10 d

@[simp] theorem compositionModeOfValue_value (m : CompositionMode) :
    compositionModeOfValue m.value = some m := by
  cases m <;> rfl

theorem find_eq_filter {α : Type} (c : List α) (w : Where α) :
    find c w = c.filter (fun d => w.matches d) := rfl

@[simp] theorem find_all {α : Type} (c : List α) : find c .all = c := by
  simp [find]

theorem find_one_eq_none {α : Type} {c : List α} {w : Where α}
    (h : ∀ d ∈ c, w.matches d = false) : find_one c w = none := by
  have : find c w = [] := by
    simp only [find, List.filter_eq_nil_iff]
    intro d hd
    simp [h d hd]
  simp [find_one, this]

theorem find_one_eq_none_iff {α : Type} {c : List α} {w : Where α} :
    find_one c w = none ↔ ∀ d ∈ c, w.matches d = false := by
  constructor
  · intro h d hd
    rw [find_one, List.head?_eq_none_iff, find_eq_filter,
      List.filter_eq_nil_iff] at h
    have := h d hd
    simpa using this
  · exact find_one_eq_none

theorem find_one_some_split {α : Type} {c : List α} {w : Where α} {d : α}
    (h : find_one c w = some d) :
    ∃ pre post, c = pre ++ d :: post ∧ w.matches d = true ∧
      ∀ e ∈ pre, w.matches e = false := by
  induction c with
  | nil => simp [find_one, find] at h
  | cons x xs ih =>
    by_cases hx : w.matches x = true
    · have : find_one (x :: xs) w = some x := by
        simp [find_one, find, hx]
      rw [this] at h
      obtain rfl := Option.some.inj h
      exact ⟨[], xs, rfl, hx, by simp⟩
    · have hx' : w.matches x = false := by
        cases hval : w.matches x
        · rfl
        · exact absurd hval hx
      have : find_one (x :: xs) w = find_one xs w := by
        simp [find_one, find, hx']
      rw [this] at h
      obtain ⟨pre, post, hc, hm, hpre⟩ := ih h
      refine ⟨x :: pre, post, by simp [hc], hm, ?_⟩
      intro e he
      rcases List.mem_cons.mp he with rfl | he'
      · exact hx'
      · exact hpre e he'

theorem find_one_mem {α : Type} {c : List α} {w : Where α} {d : α}
    (h : find_one c w = some d) : d ∈ c ∧ w.matches d = true := by
  obtain ⟨pre, post, hc, hm, _⟩ := find_one_some_split h
  exact ⟨by simp [hc], hm⟩

theorem find_one_append_right {α : Type} {c : List α} {w : Where α} (d : α)
    (h : ∀ e ∈ c, w.matches e = false) (hd : w.matches d = true) :
    find_one (c ++ [d]) w = some d := by
  have hc : c.filter (fun e => w.matches e) = [] := by
    rw [List.filter_eq_nil_iff]
    intro e he
    simp [h e he]
  simp [find_one, find, List.filter_append, hc, hd]

theorem update_one_no_match {α : Type} (f : α → α) {c : List α} {w : Where α}
    (h : ∀ d ∈ c, w.matches d = false) :
    update_one f c w = (⟨none⟩, c) := by
  induction c with
  | nil => rfl
  | cons x xs ih =>
    have hx := h x (by simp)
    have hxs : ∀ d ∈ xs, w.matches d = false := fun d hd => h d (by simp [hd])
    simp [update_one, hx, ih hxs]

theorem update_one_split {α : Type} (f : α → α) {pre post : List α} {w : Where α}
    {d : α} (hpre : ∀ e ∈ pre, w.matches e = false) (hd : w.matches d = true) :
    update_one f (pre ++ d :: post) w = (⟨some (f d)⟩, pre ++ f d :: post) := by
  induction pre with
  | nil => simp [update_one, hd]
  | cons x xs ih =>
    have hx := hpre x (by simp)
    have hxs : ∀ e ∈ xs, w.matches e = false := fun e he => hpre e (by simp [he])
    simp [update_one, hx, ih hxs]

theorem delete_one_no_match {α : Type} {c : List α} {w : Where α}
    (h : ∀ d ∈ c, w.matches d = false) :
    delete_one c w = (⟨0, none⟩, c) := by
  induction c with
  | nil => rfl
  | cons x xs ih =>
    have hx := h x (by simp)
    have hxs : ∀ d ∈ xs, w.matches d = false := fun d hd => h d (by simp [hd])
    simp [delete_one, hx, ih hxs]

theorem delete_one_split {α : Type} {pre post : List α} {w : Where α} {d : α}
    (hpre : ∀ e ∈ pre, w.matches e = false) (hd : w.matches d = true) :
    delete_one (pre ++ d :: post) w = (⟨1, some d⟩, pre ++ post) := by
  induction pre with
  | nil => simp [delete_one, hd]
  | cons x xs ih =>
    have hx := hpre x (by simp)
    have hxs : ∀ e ∈ xs, w.matches e = false := fun e he => hpre e (by simp [he])
    simp [delete_one, hx, ih hxs]

theorem length_le_one_of_nodup_const {α : Type} {l : List α} {x : α}
    (hnd : l.Nodup) (hconst : ∀ a ∈ l, a = x) : l.length ≤ 1 := by
  match l with
  | [] => simp
  | [a] => simp
  | a :: b :: rest =>
    exfalso
    have ha := hconst a (by simp)
    have hb := hconst b (by simp)
    have : a ≠ b := by
      have := List.nodup_cons.mp hnd
      exact fun hab => this.1 (hab ▸ List.mem_cons_self b rest)
    exact this (ha.trans hb.symm)

theorem length_filter_le_one {α : Type} {c : List α} {f : α → String} {x : String}
    {p : α → Bool} (hnd : (c.map f).Nodup) (hp : ∀ d, p d = true → f d = x) :
    (c.filter p).length ≤ 1 := by
  have hsub : List.Sublist ((c.filter p).map f) (c.map f) :=
    List.Sublist.map f (List.filter_sublist c)
  have hnd' : ((c.filter p).map f).Nodup := hnd.sublist hsub
  have hconst : ∀ a ∈ (c.filter p).map f, a = x := by
    intro a ha
    obtain ⟨d, hd, rfl⟩ := List.mem_map.mp ha
    exact hp d (List.mem_filter.mp hd).2
  have := length_le_one_of_nodup_const hnd' hconst
  simpa using this

theorem delete_one_eq_filter {α : Type} {c : List α} {w : Where α}
    (h : (c.filter (fun d => w.matches d)).length ≤ 1) :
    (delete_one c w).2 = c.filter (fun d => !w.matches d) := by
  induction c with
  | nil => rfl
  | cons x xs ih =>
    by_cases hx : w.matches x = true
    · have hxs : ∀ d ∈ xs, w.matches d = false := by
        intro d hd
        by_contra hne
        have hd' : w.matches d = true := by
          cases hval : w.matches d
          · exact absurd hval hne
          · rfl
        have : 2 ≤ ((x :: xs).filter (fun e => w.matches e)).length := by
          simp only [List.filter_cons, hx, if_true]
          have : d ∈ xs.filter (fun e => w.matches e) :=
            List.mem_filter.mpr ⟨hd, hd'⟩
          have := List.length_pos_of_mem this
          simpa using Nat.succ_le_succ this
        omega
      have hfilter : xs.filter (fun d => !w.matches d) = xs := by
        rw [List.filter_eq_self]
        intro d hd
        simp [hxs d hd]
      simp [delete_one, hx, List.filter_cons, hfilter]
    · have hx' : w.matches x = false := by
        cases hval : w.matches x
        · rfl
        · exact absurd hval hx
      have h' : (xs.filter (fun d => w.matches d)).length ≤ 1 := by
        have : (x :: xs).filter (fun d => w.matches d)
            = xs.filter (fun d => w.matches d) := by
          simp [List.filter_cons, hx']
        rwa [this] at h
      simp [delete_one, hx', List.filter_cons, ih h']

theorem delete_found_cons {α : Type} (idOf : α → String) (d : α) (c ds : List α)
    (h : ∀ e ∈ ds, idOf e ≠ idOf d) :
    AgentDocumentStore.delete_found idOf (d :: c) ds =
      (d :: (AgentDocumentStore.delete_found idOf c ds).1,
        (AgentDocumentStore.delete_found idOf c ds).2) := by
  induction ds generalizing c with
  | nil => rfl
  | cons e es ih =>
    have hne : idOf e ≠ idOf d := h e (by simp)
    have hd : (Where.eq (fun a => Value.str (idOf a)) (Value.str (idOf e))).matches d
        = false := by
      simp [Where.matches, Value.str.injEq]
      exact fun hc => hne hc.symm
    have hes : ∀ x ∈ es, idOf x ≠ idOf d := fun x hx => h x (by simp [hx])
    simp only [AgentDocumentStore.delete_found, delete_one, hd, if_neg,
      Bool.false_eq_true, not_false_eq_true]
    simp [ih _ hes]

theorem delete_found_filter {α : Type} (idOf : α → String) (p : α → Bool)
    (c : List α) (h : (c.map idOf).Nodup) :
    (AgentDocumentStore.delete_found idOf c (c.filter p)).1
      = c.filter (fun d => !p d) := by
  induction c with
  | nil => rfl
  | cons d cs ih =>
    rw [List.map_cons, List.nodup_cons] at h
    have hfresh : idOf d ∉ cs.map idOf := h.1
    have hcs : (cs.map idOf).Nodup := h.2
    by_cases hp : p d = true
    · have hmatch : (Where.eq (fun a => Value.str (idOf a))
          (Value.str (idOf d))).matches d = true := by
        simp [Where.matches]
      simp [List.filter_cons, hp, AgentDocumentStore.delete_found, delete_one,
        hmatch, ih hcs]
    · have hp' : p d = false := by
        cases hval : p d
        · rfl
        · exact absurd hval hp
      have hne : ∀ e ∈ cs.filter p, idOf e ≠ idOf d := by
        intro e he heq
        exact hfresh (heq ▸ List.mem_map_of_mem idOf (List.mem_filter.mp he).1)
      have hstep : (d :: cs).filter p = cs.filter p := by
        simp [List.filter_cons, hp']
      rw [hstep, delete_found_cons idOf d cs (cs.filter p) hne]
      simp [List.filter_cons, hp', ih hcs]

theorem insert_each_ok {α : Type} (idOf : α → String) (c ds : List α)
    (h1 : ∀ d ∈ ds, ∀ e ∈ c, idOf e ≠ idOf d) (h2 : (ds.map idOf).Nodup) :
    AgentDocumentStore.insert_each idOf c ds = (.ok (), c ++ ds, ds.length) := by
  induction ds generalizing c with
  | nil => simp [AgentDocumentStore.insert_each]
  | cons d es ih =>
    have hfree : c.any (fun e => idOf e == idOf d) = false := by
      rw [List.any_eq_false]
      intro e he
      simp only [beq_iff_eq]
      exact h1 d (by simp) e he
    rw [List.map_cons, List.nodup_cons] at h2
    have h1' : ∀ x ∈ es, ∀ e ∈ c ++ [d], idOf e ≠ idOf x := by
      intro x hx e he
      rcases List.mem_append.mp he with he' | he'
      · exact h1 x (by simp [hx]) e he'
      · have : e = d := by simpa using he'
        subst this
        intro heq
        exact h2.1 (heq ▸ List.mem_map_of_mem idOf hx)
    have hrec := ih (c ++ [d]) h1' h2.2
    simp [AgentDocumentStore.insert_each, insert_one, hfree, hrec]

theorem bool_eq_of_iff {a b : Bool} (h : a = true ↔ b = true) : a = b := by
  cases a <;> cases b <;> simp_all

theorem matchesAny_eq_true_iff {α : Type} (f : α → String) (ids : List String)
    (d : α) :
    Where.matchesAny (ids.map fun i => Where.eq (fun x => Value.str (f x))
      (Value.str i)) d = true ↔ f d ∈ ids := by
  induction ids with
  | nil => simp
  | cons i is ih =>
    simp [Where.matches, ih, List.mem_cons]

theorem matchesAll_ne_eq_true_iff {α : Type} (f : α → String) (ids : List String)
    (d : α) :
    Where.matchesAll (ids.map fun i => Where.ne (fun x => Value.str (f x))
      (Value.str i)) d = true ↔ f d ∉ ids := by
  induction ids with
  | nil => simp
  | cons i is ih =>
    simp only [List.map_cons, Where.matchesAll_cons, Bool.and_eq_true, ih,
      Where.matches_ne_def, Bool.not_eq_true', decide_eq_false_iff_not,
      List.mem_cons, not_or]
    simp [Value.str.injEq]

theorem find_one_split_match {α : Type} {pre post : List α} {w : Where α} {d : α}
    (hpre : ∀ e ∈ pre, w.matches e = false) (hd : w.matches d = true) :
    find_one (pre ++ d :: post) w = some d := by
  have hc : pre.filter (fun e => w.matches e) = [] := by
    rw [List.filter_eq_nil_iff]
    intro e he
    simp [hpre e he]
  simp [find_one, find, List.filter_append, hc, List.filter_cons, hd]

theorem mem_of_head?_eq_some {α : Type} {l : List α} {a : α}
    (h : l.head? = some a) : a ∈ l := by
  cases l with
  | nil => simp at h
  | cons x xs =>
    simp only [List.head?_cons, Option.some.injEq] at h
    simp [h]

theorem mem_of_getLast?_eq_some {α : Type} {l : List α} {a : α}
    (h : l.getLast? = some a) : a ∈ l := by
  induction l with
  | nil => simp at h
  | cons x xs ih =>
    cases xs with
    | nil =>
      simp only [List.getLast?_singleton, Option.some.injEq] at h
      simp [h]
    | cons y ys =>
      rw [List.getLast?_cons_cons] at h
      simp [ih h]

theorem not_mem_of_contains_eq_false {α : Type} [BEq α] [LawfulBEq α]
    {l : List α} {a : α} (h : l.contains a = false) : a ∉ l := by
  intro hmem
  rw [List.contains_eq_any_beq, List.any_eq_false] at h
  exact absurd (beq_self_eq_true a) (by simpa using h a hmem)

/-- C9: every id returned by the unique-id generator has the fixed length
of 10 characters and never starts or ends with a reserved separator
character (a dash or an underscore): generate_id retries until the
candidate neither starts nor ends with a dash and contains no underscore,
and every nanoid candidate has the requested size 10. -/
theorem C9_generate_id_shape (candidates : List (List Char)) (s : List Char)
    (hlen : ∀ c ∈ candidates, c.length = 10)
    (hgen : generate_id candidates = some s) :
    s.length = 10 ∧ s.head? ≠ some '-' ∧ s.getLast? ≠ some '-' ∧
      s.head? ≠ some '_' ∧ s.getLast? ≠ some '_' := by
  have hmem : s ∈ candidates := List.mem_of_find?_eq_some hgen
  have hvalid : valid_new_id s = true := List.find?_some hgen
  have hlen' := hlen s hmem
  unfold valid_new_id at hvalid
  simp only [Bool.and_eq_true, Bool.not_eq_true', Bool.or_eq_false_iff] at hvalid
  obtain ⟨⟨hhead, hlast⟩, hund⟩ := hvalid
  have hnu : '_' ∉ s := not_mem_of_contains_eq_false hund
  refine ⟨hlen', ?_, ?_, ?_, ?_⟩
  · intro hc
    rw [hc] at hhead
    simp at hhead
  · intro hc
    rw [hc] at hlast
    simp at hlast
  · intro hc
    exact hnu (mem_of_head?_eq_some hc)
  · intro hc
    exact hnu (mem_of_getLast?_eq_some hc)

/-- Witness for C9 at a concrete candidate stream: the first candidate
starts with a dash and is rejected, the second is returned. -/
theorem C9_generate_id_shape_witness :
    (['-', 'a', 'b', 'c', 'd', 'e', 'f', 'g', 'h', 'i'].length = 10 ∧
      ['a', 'b', 'c', 'd', 'e', 'f', 'g', 'h', 'i', 'j'].length = 10) ∧
    (['a', 'b', 'c', 'd', 'e', 'f', 'g', 'h', 'i', 'j'].length = 10 ∧
      ['a', 'b', 'c', 'd', 'e', 'f', 'g', 'h', 'i', 'j'].head? ≠ some '-' ∧
      ['a', 'b', 'c', 'd', 'e', 'f', 'g', 'h', 'i', 'j'].getLast? ≠ some '-' ∧
      ['a', 'b', 'c', 'd', 'e', 'f', 'g', 'h', 'i', 'j'].head? ≠ some '_' ∧
      ['a', 'b', 'c', 'd', 'e', 'f', 'g', 'h', 'i', 'j'].getLast? ≠ some '_') :=
  ⟨by decide,
    C9_generate_id_shape
      [['-', 'a', 'b', 'c', 'd', 'e', 'f', 'g', 'h', 'i'],
       ['a', 'b', 'c', 'd', 'e', 'f', 'g', 'h', 'i', 'j']]
      ['a', 'b', 'c', 'd', 'e', 'f', 'g', 'h', 'i', 'j']
      (by decide) (by decide)⟩

/-- C4 counterexample: on a store with no guideline at all, update_guideline
with an absent id fails with the generic assertion failure of its assert
statement on the update_one result, not with the distinct NotFound error
type the claim requires of every typed store. -/
theorem C4_counterexample :
    (GuidelineDocumentStore.update_guideline ⟨[], []⟩ "g1"
        { condition := some "c" }).1 = .error .assertionFailed ∧
    (GuidelineDocumentStore.update_guideline ⟨[], []⟩ "g1"
        { condition := some "c" }).1 ≠ .error (.itemNotFound "g1") := by
  have base : (GuidelineDocumentStore.update_guideline ⟨[], []⟩ "g1"
      { condition := some "c" }).1 = .error .assertionFailed := rfl
  refine ⟨base, ?_⟩
  rw [base]
  intro h
  injection h with h2
  exact absurd h2 (by decide)

/-- C4 amended: with an absent entity id, update_agent fails with the
distinct NotFound error (it runs a find_one first and raises
ItemNotFoundError), while update_guideline runs update_one directly and
fails its assert on the empty result, a generic assertion failure rather
than the NotFound type. -/
theorem C4_amended_update_absent_id (sA : AgentStoreState) (aid : String)
    (pA : AgentUpdateParams) (sG : GuidelineStoreState) (gid : String)
    (pG : GuidelineUpdateParams)
    (hA : ∀ d ∈ sA.agents, d.id ≠ aid)
    (hG : ∀ d ∈ sG.guidelines, d.id ≠ gid) :
    (AgentDocumentStore.update_agent sA aid pA).1 = .error (.itemNotFound aid) ∧
    (GuidelineDocumentStore.update_guideline sG gid pG).1
      = .error .assertionFailed := by
  constructor
  · have hnone : find_one sA.agents (AgentDocumentStore.agentIdEq aid) = none := by
      apply find_one_eq_none
      intro d hd
      simp [AgentDocumentStore.agentIdEq, Where.matches, hA d hd]
    simp [AgentDocumentStore.update_agent, hnone]
  · have hnm : ∀ d ∈ sG.guidelines,
        (GuidelineDocumentStore.guidelineIdEq gid).matches d = false := by
      intro d hd
      simp [GuidelineDocumentStore.guidelineIdEq, Where.matches, hG d hd]
    have hup := update_one_no_match
      (GuidelineDocumentStore.applyGuidelineUpdateParams pG) hnm
    simp [GuidelineDocumentStore.update_guideline, hup]

/-- Witness for C4 at the empty stores. -/
theorem C4_amended_update_absent_id_witness :
    ((∀ d ∈ (⟨[], []⟩ : AgentStoreState).agents, d.id ≠ "a1") ∧
      (∀ d ∈ (⟨[], []⟩ : GuidelineStoreState).guidelines, d.id ≠ "g1")) ∧
    ((AgentDocumentStore.update_agent ⟨[], []⟩ "a1" {}).1
        = .error (.itemNotFound "a1") ∧
      (GuidelineDocumentStore.update_guideline ⟨[], []⟩ "g1" {}).1
        = .error .assertionFailed) :=
  ⟨⟨by simp, by simp⟩,
    C4_amended_update_absent_id ⟨[], []⟩ "a1" {} ⟨[], []⟩ "g1" {}
      (by simp) (by simp)⟩

/-- C10: supplying the metadata key in GuidelineUpdateParams to
update_guideline has no effect: the update document is built only from the
condition, action and enabled keys, so the stored metadata is unchanged
even when a metadata value is supplied; add_metadata, by contrast, rewrites
the stored metadata to the merged mapping. -/
theorem C10_update_guideline_ignores_metadata (s : GuidelineStoreState)
    (gid : String) (params : GuidelineUpdateParams) (m : List (String × Value))
    (d0 : GuidelineDocument)
    (hfind : find_one s.guidelines (GuidelineDocumentStore.guidelineIdEq gid)
      = some d0) :
    GuidelineDocumentStore.update_guideline s gid { params with metadata := some m }
      = GuidelineDocumentStore.update_guideline s gid { params with metadata := none } ∧
    find_one (GuidelineDocumentStore.update_guideline s gid params).2.1.guidelines
        (GuidelineDocumentStore.guidelineIdEq gid)
      = some (GuidelineDocumentStore.applyGuidelineUpdateParams params d0) ∧
    (GuidelineDocumentStore.applyGuidelineUpdateParams params d0).metadata
      = d0.metadata ∧
    find_one (GuidelineDocumentStore.add_metadata s gid m).2.1.guidelines
        (GuidelineDocumentStore.guidelineIdEq gid)
      = some { d0 with metadata := dictUpdate d0.metadata m } := by
  obtain ⟨pre, post, hc, hm, hpre⟩ := find_one_some_split hfind
  have hmatch_apply : (GuidelineDocumentStore.guidelineIdEq gid).matches
      (GuidelineDocumentStore.applyGuidelineUpdateParams params d0) = true := hm
  have hsplit := @update_one_split _
    (GuidelineDocumentStore.applyGuidelineUpdateParams params) pre post _ d0 hpre hm
  refine ⟨rfl, ?_, rfl, ?_⟩
  · rw [GuidelineDocumentStore.update_guideline, hc, hsplit]
    exact find_one_split_match hpre hmatch_apply
  · have hmatch_meta : (GuidelineDocumentStore.guidelineIdEq gid).matches
        { d0 with metadata := dictUpdate d0.metadata m } = true := hm
    have hsplit2 := @update_one_split _
      (fun d => { d with metadata := dictUpdate d0.metadata m }) pre post _ d0 hpre hm
    rw [GuidelineDocumentStore.add_metadata, hfind]
    simp only [hc, hsplit2]
    exact find_one_split_match hpre hmatch_meta

/-- Witness for C10 at a one-guideline store. -/
theorem C10_update_guideline_ignores_metadata_witness :
    find_one gstate1.guidelines (GuidelineDocumentStore.guidelineIdEq "g1")
      = some gdoc1 ∧
    (GuidelineDocumentStore.applyGuidelineUpdateParams { enabled := some false }
        gdoc1).metadata = gdoc1.metadata := by
  have h := C10_update_guideline_ignores_metadata gstate1 "g1"
    { enabled := some false } [("x", Value.null)] gdoc1 (by decide)
  exact ⟨by decide, h.2.2.1⟩

/-- C3 counterexample: running the migration chain of the guideline store
on a concrete 0.1.0 record does not produce a current-version record at
all: the first converter adds enabled=true and reaches 0.2.0, but the
registered 0.2.0 to 0.3.0 converter is an intentional stub that raises and
demands the external migration script, so the chain fails with that
condition. -/
theorem C3_counterexample :
    guideline_document_loader gbase010 = .error .migrationStub := rfl

/-- C3 amended: the 0.1.0 to 0.2.0 converter adds enabled=true and bumps
the version, keeping every other field; the chain applied to a 0.1.0
record then fails at the intentional 0.2.0 to 0.3.0 stub, which requires
the offline migration tool, instead of reaching the current version; only
from 0.3.0 does the chain complete, and its output agrees with a freshly
serialized current-version record on every field (version, condition,
action, enabled, metadata defaulted to the empty mapping, no
guideline_set) except the id and the creation timestamp. -/
theorem C3_amended_migration_chain (gid gid2 : String) (cu : List Nat)
    (gset cond act : String) (en : Bool) (dt2 : DateTime) :
    guideline_document_converter_0_1_0_to_0_2_0
        { id := gid, version := "0.1.0", creation_utc := cu,
          guideline_set := some gset, condition := cond, action := act }
      = .ok (some
          { id := gid, version := "0.2.0", creation_utc := cu,
            guideline_set := some gset, condition := cond, action := act,
            enabled := some true }) ∧
    guideline_document_loader
        { id := gid, version := "0.1.0", creation_utc := cu,
          guideline_set := some gset, condition := cond, action := act }
      = .error .migrationStub ∧
    guideline_document_loader
        { id := gid, version := "0.3.0", creation_utc := cu,
          condition := cond, action := act, enabled := some en }
      = .ok (some
          { id := gid, version := "0.4.0", creation_utc := cu,
            condition := cond, action := act, enabled := some en,
            metadata := some [] }) ∧
    (let fresh := (GuidelineDocumentStore.serialize
        { id := gid2, creation_utc := dt2,
          content := { condition := cond, action := act },
          enabled := en, tags := [], metadata := [] }).toBase
     fresh.version = "0.4.0" ∧ fresh.condition = cond ∧ fresh.action = act ∧
       fresh.enabled = some en ∧ fresh.metadata = some [] ∧
       fresh.guideline_set = none) := by
  refine ⟨rfl, ?_, ?_, ⟨rfl, rfl, rfl, rfl, rfl, rfl⟩⟩
  · rfl
  · rfl

/-- C5: list semantics of the tag filter.  An absent tag filter returns
every entity; an explicitly empty tag filter returns exactly the entities
with no tag association at all; a nonempty tag filter returns exactly the
entities associated with at least one of the given tags. -/
theorem C5_list_guidelines_filter_semantics (s : GuidelineStoreState)
    (ts : List String) (hts : ts ≠ []) :
    (GuidelineDocumentStore.list_guidelines s none).1
      = s.guidelines.map (GuidelineDocumentStore.deserialize s) ∧
    (GuidelineDocumentStore.list_guidelines s (some [])).1
      = (s.guidelines.filter (fun d =>
          !decide (∃ a ∈ s.guideline_tag_associations, a.guideline_id = d.id))).map
          (GuidelineDocumentStore.deserialize s) ∧
    (GuidelineDocumentStore.list_guidelines s (some ts)).1
      = (s.guidelines.filter (fun d =>
          decide (∃ a ∈ s.guideline_tag_associations,
            a.guideline_id = d.id ∧ a.tag_id ∈ ts))).map
          (GuidelineDocumentStore.deserialize s) := by
  refine ⟨?_, ?_, ?_⟩
  · simp [GuidelineDocumentStore.list_guidelines]
  · by_cases hempty : s.guideline_tag_associations = []
    · simp [GuidelineDocumentStore.list_guidelines, hempty]
    · have key : ∀ d : GuidelineDocument,
          (Where.and (((find s.guideline_tag_associations .all).map
              (·.guideline_id)).map
            fun i => Where.ne (fun x => Value.str x.id) (Value.str i))).matches d
          = !decide (∃ a ∈ s.guideline_tag_associations, a.guideline_id = d.id) := by
        intro d
        apply bool_eq_of_iff
        rw [Where.matches_and_def,
          matchesAll_ne_eq_true_iff (fun x : GuidelineDocument => x.id)]
        simp
      have hne : (((find s.guideline_tag_associations .all).map
          (·.guideline_id)).isEmpty) = false := by
        simp [hempty]
      simp only [GuidelineDocumentStore.list_guidelines, List.isEmpty_nil,
        if_true, hne, Bool.false_eq_true, if_false]
      rw [find_eq_filter]
      simp only [key]
  · have hts' : ts.isEmpty = false := by simp [hts]
    have keyA : ∀ a : GuidelineTagAssociationDocument,
        (Where.or (ts.map fun tg => Where.eq (fun x => Value.str x.tag_id)
          (Value.str tg))).matches a = decide (a.tag_id ∈ ts) := by
      intro a
      apply bool_eq_of_iff
      rw [Where.matches_or_def,
        matchesAny_eq_true_iff (fun x : GuidelineTagAssociationDocument => x.tag_id)]
      simp
    have hfind : find s.guideline_tag_associations
        (Where.or (ts.map fun tg => Where.eq (fun x => Value.str x.tag_id)
          (Value.str tg)))
        = s.guideline_tag_associations.filter (fun a => decide (a.tag_id ∈ ts)) := by
      rw [find_eq_filter]
      simp only [keyA]
    by_cases hassoc :
        s.guideline_tag_associations.filter (fun a => decide (a.tag_id ∈ ts)) = []
    · have hforall : ∀ a ∈ s.guideline_tag_associations, a.tag_id ∉ ts := by
        intro a ha
        have := List.filter_eq_nil_iff.mp hassoc a ha
        simpa using this
      have hrhs : s.guidelines.filter (fun d =>
          decide (∃ a ∈ s.guideline_tag_associations,
            a.guideline_id = d.id ∧ a.tag_id ∈ ts)) = [] := by
        rw [List.filter_eq_nil_iff]
        intro d _
        simp only [decide_eq_true_eq, not_exists, not_and]
        intro a ha _
        exact fun hmem => hforall a ha hmem
      simp only [GuidelineDocumentStore.list_guidelines, hts', Bool.false_eq_true,
        if_false, hfind, hassoc, List.map_nil, List.isEmpty_nil, if_true, hrhs]
    · have hne2 : ((s.guideline_tag_associations.filter
          (fun a => decide (a.tag_id ∈ ts))).map (·.guideline_id)).isEmpty = false := by
        simp [hassoc]
      have keyB : ∀ d : GuidelineDocument,
          (Where.or (((s.guideline_tag_associations.filter
              (fun a => decide (a.tag_id ∈ ts))).map (·.guideline_id)).map
            fun i => Where.eq (fun x => Value.str x.id) (Value.str i))).matches d
          = decide (∃ a ∈ s.guideline_tag_associations,
              a.guideline_id = d.id ∧ a.tag_id ∈ ts) := by
        intro d
        apply bool_eq_of_iff
        rw [Where.matches_or_def,
          matchesAny_eq_true_iff (fun x : GuidelineDocument => x.id)]
        simp only [List.mem_map, List.mem_filter, decide_eq_true_eq]
        constructor
        · rintro ⟨a, ⟨ha, hta⟩, hgid⟩
          exact ⟨a, ha, hgid, hta⟩
        · rintro ⟨a, ha, hgid, hta⟩
          exact ⟨a, ⟨ha, hta⟩, hgid⟩
      simp only [GuidelineDocumentStore.list_guidelines, hts', Bool.false_eq_true,
        if_false, hfind, hne2]
      rw [find_eq_filter]
      simp only [keyB]

/-- Witness for C5 at the two-guideline store of the concrete spec
scenario: gdoc1 has no tags, gdoc2 carries tag t1. -/
theorem C5_list_guidelines_filter_semantics_witness :
    (["t1"] : List String) ≠ [] ∧
    ((GuidelineDocumentStore.list_guidelines gstate2 none).1
        = gstate2.guidelines.map (GuidelineDocumentStore.deserialize gstate2) ∧
      (GuidelineDocumentStore.list_guidelines gstate2 (some [])).1
        = (gstate2.guidelines.filter (fun d =>
            !decide (∃ a ∈ gstate2.guideline_tag_associations,
              a.guideline_id = d.id))).map
            (GuidelineDocumentStore.deserialize gstate2) ∧
      (GuidelineDocumentStore.list_guidelines gstate2 (some ["t1"])).1
        = (gstate2.guidelines.filter (fun d =>
            decide (∃ a ∈ gstate2.guideline_tag_associations,
              a.guideline_id = d.id ∧ a.tag_id ∈ (["t1"] : List String)))).map
            (GuidelineDocumentStore.deserialize gstate2)) :=
  ⟨by decide, C5_list_guidelines_filter_semantics gstate2 ["t1"] (by decide)⟩

/-- The behavior of upsert_tag when the tag is already associated: it
returns false and leaves the state untouched. -/
theorem upsert_tag_already_associated (s1 : GuidelineStoreState)
    (gid tid : String) (cu : Option DateTime) (nid : String) (now : DateTime)
    (d0 : GuidelineDocument)
    (hex1 : find_one s1.guidelines (GuidelineDocumentStore.guidelineIdEq gid)
      = some d0)
    (hmem : tid ∈ (GuidelineDocumentStore.deserialize s1 d0).tags) :
    (GuidelineDocumentStore.upsert_tag s1 gid tid cu nid now).1 = .ok false ∧
    (GuidelineDocumentStore.upsert_tag s1 gid tid cu nid now).2.1 = s1 := by
  simp only [GuidelineDocumentStore.upsert_tag, GuidelineDocumentStore.read_guideline,
    hex1, hmem, if_pos]
  exact ⟨trivial, trivial⟩

/-- C6: upsert_tag is idempotent.  For an entity present in the store and
a pair not yet associated, the first call inserts exactly one association
record and returns true; the second call with the same pair finds the tag
already associated, returns false and writes nothing, leaving exactly one
matching association record. -/
theorem C6_upsert_tag_idempotent (s : GuidelineStoreState) (gid tid : String)
    (cu1 cu2 : Option DateTime) (id1 id2 : String) (now1 now2 : DateTime)
    (d0 : GuidelineDocument)
    (hex : find_one s.guidelines (GuidelineDocumentStore.guidelineIdEq gid) = some d0)
    (hno : ∀ a ∈ s.guideline_tag_associations,
      ¬(a.guideline_id = gid ∧ a.tag_id = tid))
    (hfresh : ∀ a ∈ s.guideline_tag_associations, a.id ≠ id1) :
    (GuidelineDocumentStore.upsert_tag s gid tid cu1 id1 now1).1 = .ok true ∧
    ((GuidelineDocumentStore.upsert_tag s gid tid cu1 id1
          now1).2.1.guideline_tag_associations.filter
        (fun a => decide (a.guideline_id = gid ∧ a.tag_id = tid))).length = 1 ∧
    (GuidelineDocumentStore.upsert_tag
        (GuidelineDocumentStore.upsert_tag s gid tid cu1 id1 now1).2.1
        gid tid cu2 id2 now2).1 = .ok false ∧
    (GuidelineDocumentStore.upsert_tag
        (GuidelineDocumentStore.upsert_tag s gid tid cu1 id1 now1).2.1
        gid tid cu2 id2 now2).2.1
      = (GuidelineDocumentStore.upsert_tag s gid tid cu1 id1 now1).2.1 := by
  have hid0 : d0.id = gid := by
    have hm := (find_one_mem hex).2
    simpa [GuidelineDocumentStore.guidelineIdEq] using hm
  have htags : tid ∉ (GuidelineDocumentStore.deserialize s d0).tags := by
    intro hmem
    simp only [GuidelineDocumentStore.deserialize] at hmem
    obtain ⟨a, ha, hta⟩ := List.mem_map.mp hmem
    rw [find_eq_filter] at ha
    have hmf := List.mem_filter.mp ha
    have hgid : a.guideline_id = gid := by
      have hm2 := hmf.2
      simp only [GuidelineDocumentStore.assocGuidelineIdEq, Where.matches_eq_def,
        decide_eq_true_eq, Value.str.injEq] at hm2
      rw [hm2, hid0]
    exact hno a hmf.1 ⟨hgid, hta⟩
  have hany : s.guideline_tag_associations.any (fun e => e.id == id1) = false := by
    rw [List.any_eq_false]
    intro a ha
    simp [hfresh a ha]
  have hstate1 : (GuidelineDocumentStore.upsert_tag s gid tid cu1 id1 now1).2.1
      = { s with guideline_tag_associations := s.guideline_tag_associations
          ++ [mkGuidelineTagDoc id1 (cu1.getD now1) gid tid] } := by
    simp only [GuidelineDocumentStore.upsert_tag, GuidelineDocumentStore.read_guideline,
      hex, htags, if_neg, insert_one, hany, Bool.false_eq_true, if_false,
      mkGuidelineTagDoc]
  have hres1 : (GuidelineDocumentStore.upsert_tag s gid tid cu1 id1 now1).1
      = .ok true := by
    simp only [GuidelineDocumentStore.upsert_tag, GuidelineDocumentStore.read_guideline,
      hex, htags, if_neg, insert_one, hany, Bool.false_eq_true, if_false]
  have hexs1 : find_one ({ s with guideline_tag_associations :=
      s.guideline_tag_associations
        ++ [mkGuidelineTagDoc id1 (cu1.getD now1) gid tid] }
        : GuidelineStoreState).guidelines
      (GuidelineDocumentStore.guidelineIdEq gid) = some d0 := hex
  have htid2 : tid ∈ (GuidelineDocumentStore.deserialize
      { s with guideline_tag_associations := s.guideline_tag_associations
        ++ [mkGuidelineTagDoc id1 (cu1.getD now1) gid tid] } d0).tags := by
    simp only [GuidelineDocumentStore.deserialize, List.mem_map]
    refine ⟨mkGuidelineTagDoc id1 (cu1.getD now1) gid tid, ?_, rfl⟩
    rw [find_eq_filter]
    refine List.mem_filter.mpr ⟨by simp, ?_⟩
    simp [mkGuidelineTagDoc, GuidelineDocumentStore.assocGuidelineIdEq, hid0]
  have halready := upsert_tag_already_associated _ gid tid cu2 id2 now2 d0
    hexs1 htid2
  have hnil : s.guideline_tag_associations.filter
      (fun a => decide (a.guideline_id = gid ∧ a.tag_id = tid)) = [] := by
    rw [List.filter_eq_nil_iff]
    intro a ha
    simpa using hno a ha
  refine ⟨hres1, ?_, ?_, ?_⟩
  · rw [hstate1]
    show (List.filter _ (s.guideline_tag_associations
      ++ [mkGuidelineTagDoc id1 (cu1.getD now1) gid tid])).length = 1
    rw [List.filter_append, hnil]
    simp [mkGuidelineTagDoc]
  · rw [hstate1]
    exact halready.1
  · rw [hstate1]
    exact halready.2

/-- Witness for C6: a store holding one guideline and no associations;
two upsert calls for the pair (g1, t1). -/
theorem C6_upsert_tag_idempotent_witness :
    (find_one gstate1.guidelines (GuidelineDocumentStore.guidelineIdEq "g1")
        = some gdoc1 ∧
      (∀ a ∈ gstate1.guideline_tag_associations,
        ¬(a.guideline_id = "g1" ∧ a.tag_id = "t1")) ∧
      (∀ a ∈ gstate1.guideline_tag_associations, a.id ≠ "x9")) ∧
    ((GuidelineDocumentStore.upsert_tag gstate1 "g1" "t1" none "x9" 3).1
        = .ok true ∧
      ((GuidelineDocumentStore.upsert_tag gstate1 "g1" "t1" none "x9"
            3).2.1.guideline_tag_associations.filter
          (fun a => decide (a.guideline_id = "g1" ∧ a.tag_id = "t1"))).length = 1 ∧
      (GuidelineDocumentStore.upsert_tag
          (GuidelineDocumentStore.upsert_tag gstate1 "g1" "t1" none "x9" 3).2.1
          "g1" "t1" none "x10" 4).1 = .ok false ∧
      (GuidelineDocumentStore.upsert_tag
          (GuidelineDocumentStore.upsert_tag gstate1 "g1" "t1" none "x9" 3).2.1
          "g1" "t1" none "x10" 4).2.1
        = (GuidelineDocumentStore.upsert_tag gstate1 "g1" "t1" none "x9" 3).2.1) :=
  ⟨⟨by decide, by decide, by decide⟩,
    C6_upsert_tag_idempotent gstate1 "g1" "t1" none none "x9" "x10" 3 4 gdoc1
      (by decide) (by decide) (by decide)⟩

/-- C7: partial update frame law.  For an existing entity, the stored
record after update is the field merge of the old record with the supplied
params, and every field not named in the params (outer Option none) keeps
its previous value; the id, version and creation timestamp, which no
update params can name, are always unchanged, as is the guideline metadata
field. -/
theorem C7_partial_update_frame (sA : AgentStoreState) (aid : String)
    (pA : AgentUpdateParams) (dA : AgentDocument)
    (sG : GuidelineStoreState) (gid : String) (pG : GuidelineUpdateParams)
    (dG : GuidelineDocument)
    (hA : find_one sA.agents (AgentDocumentStore.agentIdEq aid) = some dA)
    (hG : find_one sG.guidelines (GuidelineDocumentStore.guidelineIdEq gid)
      = some dG) :
    (find_one (AgentDocumentStore.update_agent sA aid pA).2.1.agents
        (AgentDocumentStore.agentIdEq aid)
      = some (AgentDocumentStore.applyAgentUpdateParams pA dA) ∧
      (pA.name = none →
        (AgentDocumentStore.applyAgentUpdateParams pA dA).name = dA.name) ∧
      (pA.description = none →
        (AgentDocumentStore.applyAgentUpdateParams pA dA).description
          = dA.description) ∧
      (pA.max_engine_iterations = none →
        (AgentDocumentStore.applyAgentUpdateParams pA dA).max_engine_iterations
          = dA.max_engine_iterations) ∧
      (pA.composition_mode = none →
        (AgentDocumentStore.applyAgentUpdateParams pA dA).composition_mode
          = dA.composition_mode) ∧
      (AgentDocumentStore.applyAgentUpdateParams pA dA).id = dA.id ∧
      (AgentDocumentStore.applyAgentUpdateParams pA dA).version = dA.version ∧
      (AgentDocumentStore.applyAgentUpdateParams pA dA).creation_utc
        = dA.creation_utc) ∧
    (find_one (GuidelineDocumentStore.update_guideline sG gid pG).2.1.guidelines
        (GuidelineDocumentStore.guidelineIdEq gid)
      = some (GuidelineDocumentStore.applyGuidelineUpdateParams pG dG) ∧
      (pG.condition = none →
        (GuidelineDocumentStore.applyGuidelineUpdateParams pG dG).condition
          = dG.condition) ∧
      (pG.action = none →
        (GuidelineDocumentStore.applyGuidelineUpdateParams pG dG).action
          = dG.action) ∧
      (pG.enabled = none →
        (GuidelineDocumentStore.applyGuidelineUpdateParams pG dG).enabled
          = dG.enabled) ∧
      (GuidelineDocumentStore.applyGuidelineUpdateParams pG dG).id = dG.id ∧
      (GuidelineDocumentStore.applyGuidelineUpdateParams pG dG).version
        = dG.version ∧
      (GuidelineDocumentStore.applyGuidelineUpdateParams pG dG).creation_utc
        = dG.creation_utc ∧
      (GuidelineDocumentStore.applyGuidelineUpdateParams pG dG).metadata
        = dG.metadata) := by
  constructor
  · obtain ⟨pre, post, hc, hm, hpre⟩ := find_one_some_split hA
    have hsplit := @update_one_split _
      (AgentDocumentStore.applyAgentUpdateParams pA) pre post _ dA hpre hm
    have hmatch2 : (AgentDocumentStore.agentIdEq aid).matches
        (AgentDocumentStore.applyAgentUpdateParams pA dA) = true := hm
    refine ⟨?_, ?_, ?_, ?_, ?_, rfl, rfl, rfl⟩
    · simp only [AgentDocumentStore.update_agent, hA]
      rw [hc, hsplit]
      exact find_one_split_match hpre hmatch2
    · intro h
      simp [AgentDocumentStore.applyAgentUpdateParams, h]
    · intro h
      simp [AgentDocumentStore.applyAgentUpdateParams, h]
    · intro h
      simp [AgentDocumentStore.applyAgentUpdateParams, h]
    · intro h
      simp [AgentDocumentStore.applyAgentUpdateParams, h]
  · obtain ⟨pre, post, hc, hm, hpre⟩ := find_one_some_split hG
    have hsplit := @update_one_split _
      (GuidelineDocumentStore.applyGuidelineUpdateParams pG) pre post _ dG hpre hm
    have hmatch2 : (GuidelineDocumentStore.guidelineIdEq gid).matches
        (GuidelineDocumentStore.applyGuidelineUpdateParams pG dG) = true := hm
    refine ⟨?_, ?_, ?_, ?_, rfl, rfl, rfl, rfl⟩
    · rw [GuidelineDocumentStore.update_guideline, hc, hsplit]
      exact find_one_split_match hpre hmatch2
    · intro h
      simp [GuidelineDocumentStore.applyGuidelineUpdateParams, h]
    · intro h
      simp [GuidelineDocumentStore.applyGuidelineUpdateParams, h]
    · intro h
      simp [GuidelineDocumentStore.applyGuidelineUpdateParams, h]

/-- Witness for C7 at the one-agent and one-guideline stores, updating a
single field in each. -/
theorem C7_partial_update_frame_witness :
    (find_one astate1.agents (AgentDocumentStore.agentIdEq "a1") = some adoc1 ∧
      find_one gstate1.guidelines (GuidelineDocumentStore.guidelineIdEq "g1")
        = some gdoc1) ∧
    ((AgentDocumentStore.applyAgentUpdateParams { name := some "beta" }
        adoc1).description = adoc1.description ∧
      (GuidelineDocumentStore.applyGuidelineUpdateParams
        { condition := some "c9" } gdoc1).action = gdoc1.action) := by
  have h := C7_partial_update_frame astate1 "a1" { name := some "beta" } adoc1
    gstate1 "g1" { condition := some "c9" } gdoc1 (by decide) (by decide)
  exact ⟨⟨by decide, by decide⟩, ⟨h.1.2.2.1 rfl, h.2.2.2.1 rfl⟩⟩

/-- C8: create followed by an immediate read by id round-trips.  The
created entity is returned with the requested fields (fresh id, defaulted
timestamp and composition mode, tag list in order), and reading it back
deserializes the stored record and its associations to exactly the created
value. -/
theorem C8_create_read_round_trip (s : AgentStoreState) (new_id : String)
    (assoc_id : Nat → String) (now : DateTime) (nm : String)
    (description : Option String) (creation_utc : Option DateTime)
    (mei : Option Int) (cm : Option CompositionMode) (tags : Option (List String))
    (hfreshA : ∀ d ∈ s.agents, d.id ≠ new_id)
    (hfreshT : ∀ i < (tags.getD []).length, ∀ a ∈ s.agent_tags, a.id ≠ assoc_id i)
    (hinj : ∀ i < (tags.getD []).length, ∀ j < (tags.getD []).length,
      i ≠ j → assoc_id i ≠ assoc_id j)
    (hnoassoc : ∀ a ∈ s.agent_tags, a.agent_id ≠ new_id) :
    (AgentDocumentStore.create_agent s new_id assoc_id now nm description
        creation_utc mei cm tags).1
      = .ok { id := new_id
              name := nm
              description := description
              creation_utc := creation_utc.getD now
              max_engine_iterations :=
                match mei with
                | none => 1
                | some v => if v = 0 then 1 else v
              tags := tags.getD []
              composition_mode := cm.getD .fluid } ∧
    (AgentDocumentStore.read_agent
        (AgentDocumentStore.create_agent s new_id assoc_id now nm description
          creation_utc mei cm tags).2.1 new_id).1
      = (AgentDocumentStore.create_agent s new_id assoc_id now nm description
          creation_utc mei cm tags).1 := by
  set tagsL := tags.getD [] with htagsL
  set cu := creation_utc.getD now with hcu
  set a0 : Agent :=
    { id := new_id
      name := nm
      description := description
      creation_utc := cu
      max_engine_iterations :=
        match mei with
        | none => 1
        | some v => if v = 0 then 1 else v
      tags := tagsL
      composition_mode := cm.getD .fluid } with ha0
  set docs := AgentDocumentStore.createAssocDocs assoc_id cu new_id tagsL
    with hdocs
  have hanyA : s.agents.any (fun e => e.id == new_id) = false := by
    rw [List.any_eq_false]
    intro d hd
    simp [hfreshA d hd]
  have hdocs_id : docs.map (·.id) = (List.range tagsL.length).map assoc_id := by
    rw [hdocs, AgentDocumentStore.createAssocDocs, List.map_map]
    rw [show ((fun d : AgentTagAssociationDocument => d.id) ∘ fun p : Nat × String =>
      ({ id := assoc_id p.1, version := AgentDocumentStore.VERSION,
         creation_utc := isoformat cu, agent_id := new_id, tag_id := p.2 }
        : AgentTagAssociationDocument)) = (fun p : Nat × String => assoc_id p.1)
      from rfl]
    rw [show (fun p : Nat × String => assoc_id p.1)
      = assoc_id ∘ Prod.fst from rfl, ← List.map_map]
    simp
  have h2 : (docs.map (·.id)).Nodup := by
    rw [hdocs_id]
    refine List.Nodup.map_on ?_ (List.nodup_range tagsL.length)
    intro x hx y hy hxy
    by_contra hne
    exact hinj x (List.mem_range.mp hx) y (List.mem_range.mp hy) hne hxy
  have hmem_docs : ∀ d ∈ docs, ∃ i < tagsL.length, d.id = assoc_id i ∧
      d.agent_id = new_id := by
    intro d hd
    rw [hdocs, AgentDocumentStore.createAssocDocs] at hd
    obtain ⟨p, hp, rfl⟩ := List.mem_map.mp hd
    refine ⟨p.1, ?_, rfl, rfl⟩
    exact List.fst_lt_of_mem_enum hp
  have h1 : ∀ d ∈ docs, ∀ e ∈ s.agent_tags, e.id ≠ d.id := by
    intro d hd e he
    obtain ⟨i, hi, hdid, _⟩ := hmem_docs d hd
    rw [hdid]
    exact hfreshT i hi e he
  have hins := insert_each_ok (·.id) s.agent_tags docs h1 h2
  have hser_id : (AgentDocumentStore.serialize_agent a0).id = new_id := by
    rw [ha0]
    rfl
  have hcreate : AgentDocumentStore.create_agent s new_id assoc_id now nm
      description creation_utc mei cm tags
      = (.ok a0,
          { agents := s.agents ++ [AgentDocumentStore.serialize_agent a0],
            agent_tags := s.agent_tags ++ docs },
          [Ev.acquireWriter, Ev.insertOneOp "agents"]
            ++ List.replicate docs.length (Ev.insertOneOp "agent_tags")
            ++ [Ev.releaseWriter]) := by
    simp only [AgentDocumentStore.create_agent, insert_one,
      ← hcu, ← htagsL, ← ha0, ← hdocs, hser_id, hanyA,
      Bool.false_eq_true, if_false, hins]
  have hfo : find_one (s.agents ++ [AgentDocumentStore.serialize_agent a0])
      (AgentDocumentStore.agentIdEq new_id)
      = some (AgentDocumentStore.serialize_agent a0) := by
    apply find_one_append_right
    · intro e he
      simp [AgentDocumentStore.agentIdEq, hfreshA e he]
    · simp [AgentDocumentStore.agentIdEq, hser_id]
  have hfilter_old : s.agent_tags.filter
      (fun a => (AgentDocumentStore.assocAgentIdEq new_id).matches a) = [] := by
    rw [List.filter_eq_nil_iff]
    intro a ha
    simp [AgentDocumentStore.assocAgentIdEq, hnoassoc a ha]
  have hfilter_docs : docs.filter
      (fun a => (AgentDocumentStore.assocAgentIdEq new_id).matches a) = docs := by
    rw [List.filter_eq_self]
    intro a ha
    obtain ⟨i, _, _, haid⟩ := hmem_docs a ha
    simp [AgentDocumentStore.assocAgentIdEq, haid]
  have htag_ids : docs.map (·.tag_id) = tagsL := by
    rw [hdocs, AgentDocumentStore.createAssocDocs, List.map_map]
    rw [show ((fun d : AgentTagAssociationDocument => d.tag_id) ∘
      fun p : Nat × String =>
      ({ id := assoc_id p.1, version := AgentDocumentStore.VERSION,
         creation_utc := isoformat cu, agent_id := new_id, tag_id := p.2 }
        : AgentTagAssociationDocument)) = (fun p : Nat × String => p.2)
      from rfl]
    simp
  have hdeser : AgentDocumentStore.deserialize_agent
      { agents := s.agents ++ [AgentDocumentStore.serialize_agent a0],
        agent_tags := s.agent_tags ++ docs }
      (AgentDocumentStore.serialize_agent a0) = .ok a0 := by
    rw [AgentDocumentStore.deserialize_agent]
    simp only [hser_id, find_eq_filter, List.filter_append, hfilter_old,
      hfilter_docs, List.nil_append, htag_ids]
    rw [ha0]
    simp only [AgentDocumentStore.serialize_agent]
    simp [compositionModeOfValue_value]
  constructor
  · rw [hcreate]
  · rw [hcreate]
    simp only [AgentDocumentStore.read_agent, hfo, hdeser]

/-- Witness for C8: creating an agent with one tag in an empty store and
reading it back. -/
theorem C8_create_read_round_trip_witness :
    ((∀ d ∈ (⟨[], []⟩ : AgentStoreState).agents, d.id ≠ "a1") ∧
      (∀ i < ((some ["t1"] : Option (List String)).getD []).length,
        ∀ a ∈ (⟨[], []⟩ : AgentStoreState).agent_tags,
          a.id ≠ (fun _ : Nat => "x9") i) ∧
      (∀ i < ((some ["t1"] : Option (List String)).getD []).length,
        ∀ j < ((some ["t1"] : Option (List String)).getD []).length,
          i ≠ j → (fun _ : Nat => "x9") i ≠ (fun _ : Nat => "x9") j) ∧
      (∀ a ∈ (⟨[], []⟩ : AgentStoreState).agent_tags, a.agent_id ≠ "a1")) ∧
    ((AgentDocumentStore.create_agent ⟨[], []⟩ "a1" (fun _ => "x9") 3 "alpha"
          none none none none (some ["t1"])).1
        = .ok
            { id := "a1", name := "alpha", description := none,
              creation_utc := 3, max_engine_iterations := 1, tags := ["t1"],
              composition_mode := .fluid } ∧
      (AgentDocumentStore.read_agent
          (AgentDocumentStore.create_agent ⟨[], []⟩ "a1" (fun _ => "x9") 3
            "alpha" none none none none (some ["t1"])).2.1 "a1").1
        = (AgentDocumentStore.create_agent ⟨[], []⟩ "a1" (fun _ => "x9") 3
            "alpha" none none none none (some ["t1"])).1) :=
  ⟨⟨by simp, by simp, by intro i hi j hj hne; exfalso; simp at hi hj; omega,
      by simp⟩,
    C8_create_read_round_trip ⟨[], []⟩ "a1" (fun _ => "x9") 3 "alpha"
      none none none none (some ["t1"]) (by simp)
      (by intro i hi a ha; simp at ha)
      (by intro i hi j hj hne; exfalso; simp at hi hj; omega)
      (by simp)⟩

theorem list_guidelines_mem (s : GuidelineStoreState)
    (tags : Option (List String)) (g : Guideline)
    (hg : g ∈ (GuidelineDocumentStore.list_guidelines s tags).1) :
    ∃ dcc ∈ s.guidelines, g = GuidelineDocumentStore.deserialize s dcc := by
  cases tags with
  | none =>
    simp only [GuidelineDocumentStore.list_guidelines, find_all] at hg
    obtain ⟨doc, hdoc, rfl⟩ := List.mem_map.mp hg
    exact ⟨doc, hdoc, rfl⟩
  | some ts =>
    simp only [GuidelineDocumentStore.list_guidelines] at hg
    split at hg
    · rw [find_eq_filter] at hg
      obtain ⟨doc, hdoc, rfl⟩ := List.mem_map.mp hg
      exact ⟨doc, (List.mem_filter.mp hdoc).1, rfl⟩
    · split at hg
      · simp at hg
      · rw [find_eq_filter] at hg
        obtain ⟨doc, hdoc, rfl⟩ := List.mem_map.mp hg
        exact ⟨doc, (List.mem_filter.mp hdoc).1, rfl⟩

/-- C1: delete cascades to tag associations inside one writer critical
section.  For an entity present in a store with distinct record ids,
delete succeeds, afterwards no association record references the entity,
a subsequent list under any tag filter no longer returns it, and the trace
shows the primary delete and every association delete between one
acquisition and one release of the writer scope.  The same cascade holds
for the agent store. -/
theorem C1_delete_cascades (sG : GuidelineStoreState) (gid : String)
    (sA : AgentStoreState) (aid : String)
    (hndG1 : (sG.guidelines.map (·.id)).Nodup)
    (hndG2 : (sG.guideline_tag_associations.map (·.id)).Nodup)
    (hpresG : ∃ d ∈ sG.guidelines, d.id = gid)
    (hndA2 : (sA.agent_tags.map (·.id)).Nodup)
    (hpresA : ∃ d ∈ sA.agents, d.id = aid) :
    ((GuidelineDocumentStore.delete_guideline sG gid).1 = .ok () ∧
      (∀ a ∈ (GuidelineDocumentStore.delete_guideline
          sG gid).2.1.guideline_tag_associations, a.guideline_id ≠ gid) ∧
      (∀ tags g, g ∈ (GuidelineDocumentStore.list_guidelines
          (GuidelineDocumentStore.delete_guideline sG gid).2.1 tags).1 →
        g.id ≠ gid) ∧
      (∃ n, (GuidelineDocumentStore.delete_guideline sG gid).2.2
        = [Ev.acquireWriter, Ev.deleteOneOp "guidelines",
            Ev.findOp "guideline_tag_associations"]
          ++ List.replicate n (Ev.deleteOneOp "guideline_tag_associations")
          ++ [Ev.releaseWriter])) ∧
    ((AgentDocumentStore.delete_agent sA aid).1 = .ok () ∧
      (∀ a ∈ (AgentDocumentStore.delete_agent sA aid).2.1.agent_tags,
        a.agent_id ≠ aid) ∧
      (∃ n, (AgentDocumentStore.delete_agent sA aid).2.2
        = [Ev.acquireWriter, Ev.deleteOneOp "agents", Ev.findOp "agent_tags"]
          ++ List.replicate n (Ev.deleteOneOp "agent_tags")
          ++ [Ev.releaseWriter])) := by
  constructor
  · obtain ⟨dE, hdE, hdEid⟩ := hpresG
    have hw : (GuidelineDocumentStore.guidelineIdEq gid).matches dE = true := by
      simp [GuidelineDocumentStore.guidelineIdEq, hdEid]
    have hfo : ∃ d', find_one sG.guidelines
        (GuidelineDocumentStore.guidelineIdEq gid) = some d' := by
      cases h : find_one sG.guidelines (GuidelineDocumentStore.guidelineIdEq gid) with
      | some d' => exact ⟨d', rfl⟩
      | none =>
        exact absurd hw (by simp [find_one_eq_none_iff.mp h dE hdE])
    obtain ⟨d', hfo⟩ := hfo
    obtain ⟨pre, post, hc, hm, hpre⟩ := find_one_some_split hfo
    have hdel : delete_one sG.guidelines (GuidelineDocumentStore.guidelineIdEq gid)
        = (⟨1, some d'⟩, pre ++ post) := by
      rw [hc]
      exact delete_one_split hpre hm
    have hassoc : (AgentDocumentStore.delete_found
        (fun a : GuidelineTagAssociationDocument => a.id)
        sG.guideline_tag_associations
        (find sG.guideline_tag_associations
          (GuidelineDocumentStore.assocGuidelineIdEq gid))).1
        = sG.guideline_tag_associations.filter
          (fun a => !(GuidelineDocumentStore.assocGuidelineIdEq gid).matches a) := by
      rw [find_eq_filter]
      exact delete_found_filter _ _ _ hndG2
    have hprim : (delete_one sG.guidelines
        (GuidelineDocumentStore.guidelineIdEq gid)).2
        = sG.guidelines.filter
          (fun d => !(GuidelineDocumentStore.guidelineIdEq gid).matches d) := by
      apply delete_one_eq_filter
      apply length_filter_le_one hndG1
      intro d hd
      simpa [GuidelineDocumentStore.guidelineIdEq] using hd
    have hstateP : (GuidelineDocumentStore.delete_guideline sG gid).2.1.guidelines
        = sG.guidelines.filter
          (fun d => !(GuidelineDocumentStore.guidelineIdEq gid).matches d) := by
      simp only [GuidelineDocumentStore.delete_guideline]
      split <;> exact hprim
    have hstateT : (GuidelineDocumentStore.delete_guideline
        sG gid).2.1.guideline_tag_associations
        = sG.guideline_tag_associations.filter
          (fun a => !(GuidelineDocumentStore.assocGuidelineIdEq gid).matches a) := by
      simp only [GuidelineDocumentStore.delete_guideline]
      split <;> exact hassoc
    refine ⟨?_, ?_, ?_, ?_⟩
    · simp only [GuidelineDocumentStore.delete_guideline, hdel]
    · intro a ha
      rw [hstateT] at ha
      have := (List.mem_filter.mp ha).2
      simpa [GuidelineDocumentStore.assocGuidelineIdEq] using this
    · intro tags g hg
      obtain ⟨doc, hdoc, rfl⟩ := list_guidelines_mem _ tags g hg
      rw [hstateP] at hdoc
      have hnm := (List.mem_filter.mp hdoc).2
      have : doc.id ≠ gid := by
        simpa [GuidelineDocumentStore.guidelineIdEq] using hnm
      simpa [GuidelineDocumentStore.deserialize] using this
    · refine ⟨(AgentDocumentStore.delete_found
        (fun a : GuidelineTagAssociationDocument => a.id)
        sG.guideline_tag_associations
        (find sG.guideline_tag_associations
          (GuidelineDocumentStore.assocGuidelineIdEq gid))).2, ?_⟩
      simp only [GuidelineDocumentStore.delete_guideline]
      split <;> rfl
  · obtain ⟨dE, hdE, hdEid⟩ := hpresA
    have hw : (AgentDocumentStore.agentIdEq aid).matches dE = true := by
      simp [AgentDocumentStore.agentIdEq, hdEid]
    have hfo : ∃ d', find_one sA.agents (AgentDocumentStore.agentIdEq aid)
        = some d' := by
      cases h : find_one sA.agents (AgentDocumentStore.agentIdEq aid) with
      | some d' => exact ⟨d', rfl⟩
      | none =>
        exact absurd hw (by simp [find_one_eq_none_iff.mp h dE hdE])
    obtain ⟨d', hfo⟩ := hfo
    obtain ⟨pre, post, hc, hm, hpre⟩ := find_one_some_split hfo
    have hdel : delete_one sA.agents (AgentDocumentStore.agentIdEq aid)
        = (⟨1, some d'⟩, pre ++ post) := by
      rw [hc]
      exact delete_one_split hpre hm
    have hassoc : (AgentDocumentStore.delete_found
        (fun a : AgentTagAssociationDocument => a.id) sA.agent_tags
        (find sA.agent_tags (AgentDocumentStore.assocAgentIdEq aid))).1
        = sA.agent_tags.filter
          (fun a => !(AgentDocumentStore.assocAgentIdEq aid).matches a) := by
      rw [find_eq_filter]
      exact delete_found_filter _ _ _ hndA2
    have hstateT : (AgentDocumentStore.delete_agent sA aid).2.1.agent_tags
        = sA.agent_tags.filter
          (fun a => !(AgentDocumentStore.assocAgentIdEq aid).matches a) := by
      simp only [AgentDocumentStore.delete_agent]
      split <;> exact hassoc
    refine ⟨?_, ?_, ?_⟩
    · simp only [AgentDocumentStore.delete_agent, hdel]
      simp
    · intro a ha
      rw [hstateT] at ha
      have := (List.mem_filter.mp ha).2
      simpa [AgentDocumentStore.assocAgentIdEq] using this
    · refine ⟨(AgentDocumentStore.delete_found
        (fun a : AgentTagAssociationDocument => a.id) sA.agent_tags
        (find sA.agent_tags (AgentDocumentStore.assocAgentIdEq aid))).2, ?_⟩
      simp only [AgentDocumentStore.delete_agent]
      split <;> rfl

/-- Witness for C1: deleting guideline g2 (tagged t1) from the
two-guideline store and agent a1 from the one-agent store. -/
theorem C1_delete_cascades_witness :
    (((gstate2.guidelines.map (·.id)).Nodup ∧
        (gstate2.guideline_tag_associations.map (·.id)).Nodup ∧
        (∃ d ∈ gstate2.guidelines, d.id = "g2") ∧
        (astate1.agent_tags.map (·.id)).Nodup ∧
        (∃ d ∈ astate1.agents, d.id = "a1"))) ∧
    (((GuidelineDocumentStore.delete_guideline gstate2 "g2").1 = .ok () ∧
        (∀ a ∈ (GuidelineDocumentStore.delete_guideline
            gstate2 "g2").2.1.guideline_tag_associations, a.guideline_id ≠ "g2") ∧
        (∀ tags g, g ∈ (GuidelineDocumentStore.list_guidelines
            (GuidelineDocumentStore.delete_guideline gstate2 "g2").2.1 tags).1 →
          g.id ≠ "g2") ∧
        (∃ n, (GuidelineDocumentStore.delete_guideline gstate2 "g2").2.2
          = [Ev.acquireWriter, Ev.deleteOneOp "guidelines",
              Ev.findOp "guideline_tag_associations"]
            ++ List.replicate n (Ev.deleteOneOp "guideline_tag_associations")
            ++ [Ev.releaseWriter])) ∧
      ((AgentDocumentStore.delete_agent astate1 "a1").1 = .ok () ∧
        (∀ a ∈ (AgentDocumentStore.delete_agent astate1 "a1").2.1.agent_tags,
          a.agent_id ≠ "a1") ∧
        (∃ n, (AgentDocumentStore.delete_agent astate1 "a1").2.2
          = [Ev.acquireWriter, Ev.deleteOneOp "agents", Ev.findOp "agent_tags"]
            ++ List.replicate n (Ev.deleteOneOp "agent_tags")
            ++ [Ev.releaseWriter]))) :=
  ⟨⟨by decide, by decide, by decide, by decide, by decide⟩,
    C1_delete_cascades gstate2 "g2" astate1 "a1" (by decide) (by decide)
      (by decide) (by decide) (by decide)⟩

/-- C2 counterexample: upsert_tag on a concrete store acquires the reader
scope inside its writer scope (its body calls the public read operation),
so its trace does not have the claimed writer-only shape; and update_agent
performs its deserialization read of the association collection after the
writer scope is released, so its trace does not end with the writer
release either. -/
theorem C2_counterexample :
    Ev.acquireReader ∈ (AgentDocumentStore.upsert_tag astate1 "a1" "t1"
      none "x9" 3).2.2 ∧
    ¬ claimC2Shape (AgentDocumentStore.upsert_tag astate1 "a1" "t1"
      none "x9" 3).2.2 ∧
    (AgentDocumentStore.update_agent astate1 "a1"
        { name := some "beta" }).2.2.getLast? ≠ some Ev.releaseWriter ∧
    ¬ claimC2Shape (AgentDocumentStore.update_agent astate1 "a1"
      { name := some "beta" }).2.2 := by
  have hmem : Ev.acquireReader ∈ (AgentDocumentStore.upsert_tag astate1 "a1"
      "t1" none "x9" 3).2.2 := by decide
  have hlast : (AgentDocumentStore.update_agent astate1 "a1"
      { name := some "beta" }).2.2.getLast? ≠ some Ev.releaseWriter := by decide
  refine ⟨hmem, ?_, hlast, ?_⟩
  · rintro ⟨mid, heq, hmid⟩
    rw [heq] at hmem
    simp at hmem
    exact absurd (hmid _ hmem) (by decide)
  · rintro ⟨mid, heq, _⟩
    apply hlast
    rw [heq, List.getLast?_append_of_ne_nil _ (by simp)]
    rfl

/-- C2 amended: every read-modify-write store operation performs all of
its collection writes and its deciding reads inside one writer section
with no nested writer activity; after releasing the writer scope it
performs at most lock-free, write-free deserialization reads.  The
update, metadata and remove-tag operations acquire no reader scope at all;
upsert_tag, however, nests a reader-scope acquisition and release inside
its writer section, because its body calls the public read operation. -/
theorem C2_amended_lock_discipline
    (sA : AgentStoreState) (aid tid : String) (pA : AgentUpdateParams)
    (sG : GuidelineStoreState) (gid : String) (pG : GuidelineUpdateParams)
    (m : List (String × Value)) (keys : List String)
    (cu : Option DateTime) (nid : String) (now : DateTime) :
    (writerSectionWithPost (AgentDocumentStore.update_agent sA aid pA).2.2 ∧
      Ev.acquireReader ∉ (AgentDocumentStore.update_agent sA aid pA).2.2) ∧
    (writerSectionWithPost
        (GuidelineDocumentStore.update_guideline sG gid pG).2.2 ∧
      Ev.acquireReader ∉ (GuidelineDocumentStore.update_guideline sG gid pG).2.2) ∧
    (writerSectionWithPost (GuidelineDocumentStore.add_metadata sG gid m).2.2 ∧
      Ev.acquireReader ∉ (GuidelineDocumentStore.add_metadata sG gid m).2.2) ∧
    (writerSectionWithPost
        (GuidelineDocumentStore.remove_metadata sG gid keys).2.2 ∧
      Ev.acquireReader ∉ (GuidelineDocumentStore.remove_metadata sG gid keys).2.2) ∧
    (writerSectionWithPost (AgentDocumentStore.remove_tag sA aid tid).2.2 ∧
      Ev.acquireReader ∉ (AgentDocumentStore.remove_tag sA aid tid).2.2) ∧
    (writerSectionWithPost (GuidelineDocumentStore.remove_tag sG gid tid).2.2 ∧
      Ev.acquireReader ∉ (GuidelineDocumentStore.remove_tag sG gid tid).2.2) ∧
    writerSectionNestedReader
      (AgentDocumentStore.upsert_tag sA aid tid cu nid now).2.2 ∧
    writerSectionNestedReader
      (GuidelineDocumentStore.upsert_tag sG gid tid cu nid now).2.2 := by
  refine ⟨?_, ?_, ?_, ?_, ?_, ?_, ?_, ?_⟩
  · cases h : find_one sA.agents (AgentDocumentStore.agentIdEq aid) with
    | none =>
      constructor
      · refine ⟨[Ev.findOneOp "agents"], [], ?_, by decide, by decide, by decide⟩
        simp [AgentDocumentStore.update_agent, h]
      · simp [AgentDocumentStore.update_agent, h]
    | some d =>
      cases h2 : (update_one (AgentDocumentStore.applyAgentUpdateParams pA)
          sA.agents (AgentDocumentStore.agentIdEq aid)).1.updated_document with
      | none =>
        constructor
        · refine ⟨[Ev.findOneOp "agents", Ev.updateOneOp "agents"], [], ?_,
            by decide, by decide, by decide⟩
          simp [AgentDocumentStore.update_agent, h, h2]
        · simp [AgentDocumentStore.update_agent, h, h2]
      | some ud =>
        constructor
        · refine ⟨[Ev.findOneOp "agents", Ev.updateOneOp "agents"],
            [Ev.findOp "agent_tags"], ?_, by decide, by decide, by decide⟩
          simp [AgentDocumentStore.update_agent, h, h2]
        · simp [AgentDocumentStore.update_agent, h, h2]
  · cases h2 : (update_one (GuidelineDocumentStore.applyGuidelineUpdateParams pG)
        sG.guidelines (GuidelineDocumentStore.guidelineIdEq gid)).1.updated_document with
    | none =>
      constructor
      · refine ⟨[Ev.updateOneOp "guidelines"], [], ?_, by decide, by decide,
          by decide⟩
        simp [GuidelineDocumentStore.update_guideline, h2]
      · simp [GuidelineDocumentStore.update_guideline, h2]
    | some ud =>
      constructor
      · refine ⟨[Ev.updateOneOp "guidelines"],
          [Ev.findOp "guideline_tag_associations"], ?_, by decide, by decide,
          by decide⟩
        simp [GuidelineDocumentStore.update_guideline, h2]
      · simp [GuidelineDocumentStore.update_guideline, h2]
  · cases h : find_one sG.guidelines (GuidelineDocumentStore.guidelineIdEq gid) with
    | none =>
      constructor
      · refine ⟨[Ev.findOneOp "guidelines"], [], ?_, by decide, by decide,
          by decide⟩
        simp [GuidelineDocumentStore.add_metadata, h]
      · simp [GuidelineDocumentStore.add_metadata, h]
    | some d =>
      cases h2 : (update_one
          (fun dd => { dd with metadata := dictUpdate d.metadata m })
          sG.guidelines (GuidelineDocumentStore.guidelineIdEq gid)).1.updated_document with
      | none =>
        constructor
        · refine ⟨[Ev.findOneOp "guidelines", Ev.updateOneOp "guidelines"], [],
            ?_, by decide, by decide, by decide⟩
          simp [GuidelineDocumentStore.add_metadata, h, h2]
        · simp [GuidelineDocumentStore.add_metadata, h, h2]
      | some ud =>
        constructor
        · refine ⟨[Ev.findOneOp "guidelines", Ev.updateOneOp "guidelines"],
            [Ev.findOp "guideline_tag_associations"], ?_, by decide, by decide,
            by decide⟩
          simp [GuidelineDocumentStore.add_metadata, h, h2]
        · simp [GuidelineDocumentStore.add_metadata, h, h2]
  · cases h : find_one sG.guidelines (GuidelineDocumentStore.guidelineIdEq gid) with
    | none =>
      constructor
      · refine ⟨[Ev.findOneOp "guidelines"], [], ?_, by decide, by decide,
          by decide⟩
        simp [GuidelineDocumentStore.remove_metadata, h]
      · simp [GuidelineDocumentStore.remove_metadata, h]
    | some d =>
      cases h2 : (update_one
          (fun dd => { dd with
            metadata := d.metadata.filter (fun kv => !(kv.1 ∈ keys)) })
          sG.guidelines (GuidelineDocumentStore.guidelineIdEq gid)).1.updated_document with
      | none =>
        constructor
        · refine ⟨[Ev.findOneOp "guidelines", Ev.updateOneOp "guidelines"], [],
            ?_, by decide, by decide, by decide⟩
          simp [GuidelineDocumentStore.remove_metadata, h, h2]
        · simp [GuidelineDocumentStore.remove_metadata, h, h2]
      | some ud =>
        constructor
        · refine ⟨[Ev.findOneOp "guidelines", Ev.updateOneOp "guidelines"],
            [Ev.findOp "guideline_tag_associations"], ?_, by decide, by decide,
            by decide⟩
          simp [GuidelineDocumentStore.remove_metadata, h, h2]
        · simp [GuidelineDocumentStore.remove_metadata, h, h2]
  · by_cases h : (delete_one sA.agent_tags
        (Where.and [Where.eq (fun a => Value.str a.agent_id) (Value.str aid),
          Where.eq (fun a => Value.str a.tag_id) (Value.str tid)])).1.deleted_count = 0
    · constructor
      · refine ⟨[Ev.deleteOneOp "agent_tags"], [], ?_, by decide, by decide,
          by decide⟩
        simp [AgentDocumentStore.remove_tag, h]
      · simp [AgentDocumentStore.remove_tag, h]
    · cases h2 : find_one ({ sA with agent_tags := (delete_one sA.agent_tags
          (Where.and [Where.eq (fun a => Value.str a.agent_id) (Value.str aid),
            Where.eq (fun a => Value.str a.tag_id) (Value.str tid)])).2 }
          : AgentStoreState).agents (AgentDocumentStore.agentIdEq aid) with
      | none =>
        constructor
        · refine ⟨[Ev.deleteOneOp "agent_tags", Ev.findOneOp "agents"], [], ?_,
            by decide, by decide, by decide⟩
          simp [AgentDocumentStore.remove_tag, h, h2]
        · simp [AgentDocumentStore.remove_tag, h, h2]
      | some d =>
        constructor
        · refine ⟨[Ev.deleteOneOp "agent_tags", Ev.findOneOp "agents"], [], ?_,
            by decide, by decide, by decide⟩
          simp [AgentDocumentStore.remove_tag, h, h2]
        · simp [AgentDocumentStore.remove_tag, h, h2]
  · by_cases h : (delete_one sG.guideline_tag_associations
        (Where.and [Where.eq (fun a => Value.str a.guideline_id) (Value.str gid),
          Where.eq (fun a => Value.str a.tag_id) (Value.str tid)])).1.deleted_count = 0
    · constructor
      · refine ⟨[Ev.deleteOneOp "guideline_tag_associations"], [], ?_,
          by decide, by decide, by decide⟩
        simp [GuidelineDocumentStore.remove_tag, h]
      · simp [GuidelineDocumentStore.remove_tag, h]
    · cases h2 : find_one ({ sG with guideline_tag_associations :=
          (delete_one sG.guideline_tag_associations
            (Where.and [Where.eq (fun a => Value.str a.guideline_id)
                (Value.str gid),
              Where.eq (fun a => Value.str a.tag_id) (Value.str tid)])).2 }
          : GuidelineStoreState).guidelines
          (GuidelineDocumentStore.guidelineIdEq gid) with
      | none =>
        constructor
        · refine ⟨[Ev.deleteOneOp "guideline_tag_associations",
            Ev.findOneOp "guidelines"], [], ?_, by decide, by decide, by decide⟩
          simp [GuidelineDocumentStore.remove_tag, h, h2]
        · simp [GuidelineDocumentStore.remove_tag, h, h2]
      | some d =>
        constructor
        · refine ⟨[Ev.deleteOneOp "guideline_tag_associations",
            Ev.findOneOp "guidelines"], [], ?_, by decide, by decide, by decide⟩
          simp [GuidelineDocumentStore.remove_tag, h, h2]
        · simp [GuidelineDocumentStore.remove_tag, h, h2]
  · cases h : find_one sA.agents (AgentDocumentStore.agentIdEq aid) with
    | none =>
      refine ⟨[Ev.acquireReader, Ev.findOneOp "agents", Ev.releaseReader], ?_,
        by decide, by decide, by decide, by decide⟩
      simp [AgentDocumentStore.upsert_tag, AgentDocumentStore.read_agent, h]
    | some d =>
      cases hd : AgentDocumentStore.deserialize_agent sA d with
      | error e =>
        refine ⟨[Ev.acquireReader, Ev.findOneOp "agents", Ev.releaseReader,
          Ev.findOp "agent_tags"], ?_, by decide, by decide, by decide,
          by decide⟩
        simp [AgentDocumentStore.upsert_tag, AgentDocumentStore.read_agent, h, hd]
      | ok agent =>
        by_cases htag : tid ∈ agent.tags
        · refine ⟨[Ev.acquireReader, Ev.findOneOp "agents", Ev.releaseReader,
            Ev.findOp "agent_tags"], ?_, by decide, by decide, by decide,
            by decide⟩
          simp [AgentDocumentStore.upsert_tag, AgentDocumentStore.read_agent,
            h, hd, htag]
        · cases hins : insert_one (fun x : AgentTagAssociationDocument => x.id)
            sA.agent_tags
            { id := nid, version := AgentDocumentStore.VERSION,
              creation_utc := isoformat (cu.getD now), agent_id := aid,
              tag_id := tid } with
          | error e =>
            refine ⟨[Ev.acquireReader, Ev.findOneOp "agents", Ev.releaseReader,
              Ev.findOp "agent_tags", Ev.insertOneOp "agent_tags"], ?_,
              by decide, by decide, by decide, by decide⟩
            simp [AgentDocumentStore.upsert_tag, AgentDocumentStore.read_agent,
              h, hd, htag, hins]
          | ok assocs =>
            cases h3 : find_one ({ sA with agent_tags := assocs }
                : AgentStoreState).agents (AgentDocumentStore.agentIdEq aid) with
            | none =>
              refine ⟨[Ev.acquireReader, Ev.findOneOp "agents",
                Ev.releaseReader, Ev.findOp "agent_tags",
                Ev.insertOneOp "agent_tags", Ev.findOneOp "agents"], ?_,
                by decide, by decide, by decide, by decide⟩
              simp [AgentDocumentStore.upsert_tag,
                AgentDocumentStore.read_agent, h, hd, htag, hins, h3]
            | some d2 =>
              refine ⟨[Ev.acquireReader, Ev.findOneOp "agents",
                Ev.releaseReader, Ev.findOp "agent_tags",
                Ev.insertOneOp "agent_tags", Ev.findOneOp "agents"], ?_,
                by decide, by decide, by decide, by decide⟩
              simp [AgentDocumentStore.upsert_tag,
                AgentDocumentStore.read_agent, h, hd, htag, hins, h3]
  · cases h : find_one sG.guidelines (GuidelineDocumentStore.guidelineIdEq gid) with
    | none =>
      refine ⟨[Ev.acquireReader, Ev.findOneOp "guidelines", Ev.releaseReader],
        ?_, by decide, by decide, by decide, by decide⟩
      simp [GuidelineDocumentStore.upsert_tag,
        GuidelineDocumentStore.read_guideline, h]
    | some d =>
      by_cases htag : tid ∈ (GuidelineDocumentStore.deserialize sG d).tags
      · refine ⟨[Ev.acquireReader, Ev.findOneOp "guidelines", Ev.releaseReader,
          Ev.findOp "guideline_tag_associations"], ?_, by decide, by decide,
          by decide, by decide⟩
        simp [GuidelineDocumentStore.upsert_tag,
          GuidelineDocumentStore.read_guideline, h, htag]
      · cases hins : insert_one
          (fun x : GuidelineTagAssociationDocument => x.id)
          sG.guideline_tag_associations
          { id := nid, version := GuidelineDocumentStore.VERSION,
            creation_utc := isoformat (cu.getD now), guideline_id := gid,
            tag_id := tid } with
        | error e =>
          refine ⟨[Ev.acquireReader, Ev.findOneOp "guidelines",
            Ev.releaseReader, Ev.findOp "guideline_tag_associations",
            Ev.insertOneOp "guideline_tag_associations"], ?_, by decide,
            by decide, by decide, by decide⟩
          simp [GuidelineDocumentStore.upsert_tag,
            GuidelineDocumentStore.read_guideline, h, htag, hins]
        | ok assocs =>
          cases h3 : find_one ({ sG with guideline_tag_associations := assocs }
              : GuidelineStoreState).guidelines
              (GuidelineDocumentStore.guidelineIdEq gid) with
          | none =>
            refine ⟨[Ev.acquireReader, Ev.findOneOp "guidelines",
              Ev.releaseReader, Ev.findOp "guideline_tag_associations",
              Ev.insertOneOp "guideline_tag_associations",
              Ev.findOneOp "guidelines"], ?_, by decide, by decide, by decide,
              by decide⟩
            simp [GuidelineDocumentStore.upsert_tag,
              GuidelineDocumentStore.read_guideline, h, htag, hins, h3]
          | some d2 =>
            refine ⟨[Ev.acquireReader, Ev.findOneOp "guidelines",
              Ev.releaseReader, Ev.findOp "guideline_tag_associations",
              Ev.insertOneOp "guideline_tag_associations",
              Ev.findOneOp "guidelines"], ?_, by decide, by decide, by decide,
              by decide⟩
            simp [GuidelineDocumentStore.upsert_tag,
              GuidelineDocumentStore.read_guideline, h, htag, hins, h3]

end ParlantSpec
